import Mathlib

/-!
# Company use-cases: validation, persistence and event emission

A shallow embedding of `internal/domain/company.go`,
`internal/service/company/event.go`, `internal/repository/company/repository.go`
and `internal/service/company/service.go`, followed by the authentication side:
`internal/auth/auth_functionalities.go`, `internal/service/user/service.go`,
`internal/transport/http/middleware/auth_midleware.go` and the login handler of
`internal/transport/http/auth_handler.go`; then the company handlers of
`internal/transport/http/company_handler.go`, the publisher of
`internal/platform/events/kafka/publisher.go` and the MySQL repository of
`internal/repository/company/mysql/repository.go`.

Conventions of the embedding.

* A Go `string` is a Lean `String`; Go's `len(s)` is the number of bytes of the
  UTF-8 encoding, `String.utf8ByteSize`, whereas `String.length` counts Unicode
  characters. Strings are valid UTF-8, as every string decoded by
  `encoding/json` is.
* Go compares `errors.New` values by pointer; the embedding gives each such
  value an address and compares wrapped errors by content.
* A Go pointer field (`*string`, `*int`, ...) is an `Option`; `nil` is `none`.
* A Go `error` is an `Option GoError`; `nil` is `none`.
* The repository and the publisher are interfaces: they are modelled by the
  answers they give, and every use-case returns, next to its Go results, the
  list of calls it made on them (`Effect`).
* Code outside the repository (bcrypt, the token library `golang-jwt/jwt/v5`,
  the clock) is a parameter of the functions that call it; what a theorem needs
  of it is a hypothesis of that theorem.
* A Go panic is the result `none`. Of the Go runtime only `make` matters, in
  `createPatchRequestFields`; it is modelled by when it panics on a 64-bit
  machine (`mysql.makePanics`).
-/

namespace Xm

/-! ## Errors (`errors.New`, `fmt.Errorf` with `%w`, `errors.Is`) -/

/-- Go error values. `errorString addr s` is the value made by `errors.New(s)`:
a pointer, so two calls give different errors even with the same text, which
`addr` records. `wrapError msg err` is the value made by `fmt.Errorf` with one
`%w` verb: its text is `msg` and `Unwrap` gives `err`. -/
inductive GoError where
  | errorString (addr : Nat) (s : String)
  | wrapError (msg : String) (err : GoError)
deriving DecidableEq, Repr

/-- The `Error()` method. -/
def GoError.Error : GoError → String
  | .errorString _ s => s
  | .wrapError msg _ => msg

/-- Go's `errors.Is(err, target)`: equality along the `Unwrap` chain. -/
def errorsIs : GoError → GoError → Bool
  | .errorString a s, target => decide (GoError.errorString a s = target)
  | .wrapError msg err, target =>
      decide (GoError.wrapError msg err = target) || errorsIs err target

/-- The call `fmt.Errorf("%w: %v", w, v)`. -/
def errorfWV (w : GoError) (v : String) : GoError :=
  .wrapError (w.Error ++ ": " ++ v) w

/-! Sentinels of `internal/service/company/service.go`. -/

def ErrNotFound : GoError := .errorString 1 "company not found"
def ErrInvalidInput : GoError := .errorString 2 "invalid input"
def ErrUniquenessViolation : GoError := .errorString 3 "uniqueness violation"
def ErrValidationError : GoError := .errorString 4 "validation error"

/-! Sentinels of `internal/repository/company/repository.go`. -/

namespace repository

def ErrNotFound : GoError := .errorString 5 "company not found"
def ErrUniquenessViolation : GoError := .errorString 6 "name already exists"

end repository

/-! ## Strings (`len`, `unicode.IsSpace`, `strings.TrimSpace`) -/

/-- Go's builtin `len` on a string: the number of bytes. -/
def len (s : String) : Nat := s.utf8ByteSize

/-- Go's `unicode.IsSpace`: the Latin-1 spaces `\t \n \v \f \r`, space, U+0085
and U+00A0, and beyond Latin-1 the code points of the White_Space property. -/
def isSpace (r : Char) : Bool :=
  let n := r.toNat
  (0x09 ≤ n && n ≤ 0x0D) || n == 0x20 || n == 0x85 || n == 0xA0 ||
  n == 0x1680 || (0x2000 ≤ n && n ≤ 0x200A) || n == 0x2028 || n == 0x2029 ||
  n == 0x202F || n == 0x205F || n == 0x3000

/-- Go's `strings.TrimSpace`: the string without its leading and trailing
white space. -/
def TrimSpace (s : String) : String :=
  ⟨((s.data.dropWhile isSpace).reverse.dropWhile isSpace).reverse⟩

/-! ## Domain (`internal/domain/company.go`) -/

abbrev CompanyType := String

def Corporations : CompanyType := "Corporations"
def NonProfit : CompanyType := "NonProfit"
def Cooperative : CompanyType := "Cooperative"
def SoleProprietor : CompanyType := "Sole Proprietorship"

def CompanyType.IsValid (t : CompanyType) : Bool :=
  if t = Corporations ∨ t = NonProfit ∨ t = Cooperative ∨ t = SoleProprietor then
    true
  else
    false

/-- The struct `domain.Company`; the defaults are Go's zero values. -/
structure Company where
  ID : String := ""
  Name : String := ""
  Description : Option String := none
  AmountOfEmployees : Int := 0
  Registered : Bool := false
  Type_ : CompanyType := ""
deriving DecidableEq, Repr

structure PatchCompanyRequest where
  Name : Option String := none
  Description : Option String := none
  AmountOfEmployees : Option Int := none
  Registered : Option Bool := none
  Type_ : Option CompanyType := none
deriving DecidableEq, Repr

/-! ## Events (`internal/service/company/event.go`) -/

structure EventCompany where
  ID : String := ""
  Name : String := ""
  Description : Option String := none
  AmountOfEmployees : Int := 0
  Registered : Bool := false
  Type_ : String := ""
deriving DecidableEq, Repr

structure CompanyEvent where
  Operation : String := ""
  Company : EventCompany := {}
deriving DecidableEq, Repr

/-- The interface `EventPublisher`, given by what `PublishCompanyEvent`
returns. -/
structure EventPublisher where
  PublishCompanyEvent : CompanyEvent → Option GoError

/-! ## Repository interface (`internal/repository/company/repository.go`) -/

/-- The interface `repository.Repository`, given by what each method returns. -/
structure Repository where
  GetCompanyByID : String → Company × Option GoError
  CreateCompany : Company → Company × Option GoError
  DeleteCompanyByID : String → Option GoError
  PatchCompanyByID : PatchCompanyRequest → String → Int → Option GoError

/-- A call made by a use-case on one of its collaborators. -/
inductive Effect where
  | repoGet (companyID : String)
  | repoCreate (company : Company)
  | repoDelete (companyID : String)
  | repoPatch (req : PatchCompanyRequest) (uuid : String) (maxNumOfFields : Int)
  | publishCompanyEvent (event : CompanyEvent)
  | logPrintf (line : String)
deriving DecidableEq, Repr

/-- The events handed to `PublishCompanyEvent`, in order. -/
def publishedEvents : List Effect → List CompanyEvent
  | [] => []
  | .publishCompanyEvent ev :: rest => ev :: publishedEvents rest
  | _ :: rest => publishedEvents rest

/-- The calls made on the repository, in order. -/
def storeCalls : List Effect → List Effect
  | [] => []
  | .publishCompanyEvent _ :: rest => storeCalls rest
  | .logPrintf _ :: rest => storeCalls rest
  | e :: rest => e :: storeCalls rest

/-! ## Service (`internal/service/company/service.go`) -/

def maxNumOfFields : Int := 5

structure Service where
  repo : Repository
  publisher : Option EventPublisher

def NewService (repo : Repository) (publisher : Option EventPublisher) : Service :=
  { repo := repo, publisher := publisher }

def validatePatchCompanyRequestFields (company : PatchCompanyRequest) : Option GoError :=
  if company.Name = none ∧ company.AmountOfEmployees = none ∧
      company.Registered = none ∧ company.Type_ = none then
    some (errorfWV ErrValidationError "no fields provided for update")
  else if company.Name.any (fun name => len name > 15) then
    some (errorfWV ErrValidationError "name exceeds the limit of 15 characters")
  else if company.Description.any
      (fun d => let desc := TrimSpace d; desc ≠ "" ∧ len desc > 3000) then
    some (errorfWV ErrValidationError "description exceeds the limit of 3000 characters")
  else if company.Type_.any (fun t => !CompanyType.IsValid t) then
    some (errorfWV ErrValidationError "type value is invalid")
  else
    none

def validateCompanyFields (company : Company) : Option GoError :=
  if len company.Name > 15 then
    some (errorfWV ErrValidationError "name exceeds the limit of 15 characters")
  else if company.Description.any
      (fun d => let desc := TrimSpace d; desc ≠ "" ∧ len desc > 3000) then
    some (errorfWV ErrValidationError "description exceeds the limit of 3000 characters")
  else if !CompanyType.IsValid company.Type_ then
    some (errorfWV ErrValidationError "type value is invalid")
  else
    none

def Service.publish (s : Service) (event : CompanyEvent) : List Effect :=
  match s.publisher with
  | none => []
  | some p =>
    match p.PublishCompanyEvent event with
    | some err =>
      [.publishCompanyEvent event, .logPrintf ("publish company event failed: " ++ err.Error)]
    | none => [.publishCompanyEvent event]

def toEventCompany (company : Company) : EventCompany :=
  { ID := company.ID
    Name := company.Name
    Description := company.Description
    AmountOfEmployees := company.AmountOfEmployees
    Registered := company.Registered
    Type_ := company.Type_ }

def Service.GetCompanyByID (s : Service) (companyID : String) :
    (Company × Option GoError) × List Effect :=
  match s.repo.GetCompanyByID companyID with
  | (_, some err) =>
    if errorsIs err repository.ErrNotFound then
      (({}, some ErrNotFound), [.repoGet companyID])
    else
      (({}, some err), [.repoGet companyID])
  | (company, none) => ((company, none), [.repoGet companyID])

def Service.DeleteCompanyByID (s : Service) (companyID : String) :
    Option GoError × List Effect :=
  match s.repo.DeleteCompanyByID companyID with
  | some _ => (some ErrNotFound, [.repoDelete companyID])
  | none =>
    (none, .repoDelete companyID ::
      s.publish { Operation := "company.deleted", Company := { ID := companyID } })

def Service.PatchCompanyByID (s : Service) (partial_company : PatchCompanyRequest)
    (uuid : String) : Option GoError × List Effect :=
  match validatePatchCompanyRequestFields partial_company with
  | some err => (some err, [])
  | none =>
    match s.repo.PatchCompanyByID partial_company uuid maxNumOfFields with
    | some err =>
      if errorsIs err repository.ErrNotFound then
        (some ErrNotFound, [.repoPatch partial_company uuid maxNumOfFields])
      else if errorsIs err repository.ErrUniquenessViolation then
        (some (errorfWV ErrUniquenessViolation err.Error),
          [.repoPatch partial_company uuid maxNumOfFields])
      else
        (some err, [.repoPatch partial_company uuid maxNumOfFields])
    | none =>
      (none, .repoPatch partial_company uuid maxNumOfFields ::
        s.publish { Operation := "company.patched", Company := { ID := uuid } })

def Service.CreateCompany (s : Service) (company : Company) :
    (Company × Option GoError) × List Effect :=
  match validateCompanyFields company with
  | some err => (({}, some err), [])
  | none =>
    match s.repo.CreateCompany company with
    | (_, some err) =>
      if errorsIs err repository.ErrUniquenessViolation then
        (({}, some (errorfWV ErrUniquenessViolation err.Error)), [.repoCreate company])
      else
        (({}, some err), [.repoCreate company])
    | (created, none) =>
      ((created, none), .repoCreate company ::
        s.publish { Operation := "company.created", Company := toEventCompany created })

/-! ## Full payload seen as an overlay -/

/-- The overlay that sets the five fields to the values of a company: name,
amount_of_employees, registered and type point to the company's values and
description is the company's own pointer. -/
def overlayOf (c : Company) : PatchCompanyRequest :=
  { Name := some c.Name
    Description := c.Description
    AmountOfEmployees := some c.AmountOfEmployees
    Registered := some c.Registered
    Type_ := some c.Type_ }

/-- The four error kinds exported by the company service. -/
def isDomainKind (e : GoError) : Bool :=
  errorsIs e ErrNotFound || errorsIs e ErrInvalidInput ||
    errorsIs e ErrUniquenessViolation || errorsIs e ErrValidationError

/-- The innermost error of a chain, where repeated `Unwrap` ends. -/
def GoError.root : GoError → GoError
  | .errorString a s => .errorString a s
  | .wrapError _ err => err.root

/-- An error of the store layer: its chain does not end in one of the four
sentinels of the company service, which the repository packages do not
import. -/
def fromStore (e : GoError) : Prop :=
  e.root ≠ ErrNotFound ∧ e.root ≠ ErrInvalidInput ∧ e.root ≠ ErrUniquenessViolation ∧
    e.root ≠ ErrValidationError

/-! ## Time (`time.Time`, `time.Duration`, `jwt.NumericDate`) -/

/-- The type `time.Duration`: a number of nanoseconds. -/
abbrev Duration := Int

/-- An instant, as the number of nanoseconds since the Unix epoch. The reading
of `time.Now()` is an argument of the functions that call it. -/
abbrev Time := Int

def Second : Duration := 1000000000

def Hour : Duration := 3600 * Second

/-- The call `jwt.NewNumericDate(t)`: the library keeps `t.Truncate(TimePrecision)`,
and `TimePrecision` is one second unless a program changes it, which this one
does not. -/
def NewNumericDate (t : Time) : Time := t - t % Second

/-! ## Tokens (`internal/auth/auth_functionalities.go`) -/

namespace auth

def ErrMissingSecret : GoError := .errorString 21 "jwt secret is required"
def ErrInvalidToken : GoError := .errorString 22 "invalid token"

/-- The struct `auth.Claims`: `UserID` and, of the embedded
`jwt.RegisteredClaims`, the two dates that the package sets. -/
structure Claims where
  UserID : String := ""
  IssuedAt : Option Time := none
  ExpiresAt : Option Time := none
deriving DecidableEq, Repr

end auth

namespace jwt

/-- Sentinels of the library `github.com/golang-jwt/jwt/v5`. -/
def ErrTokenMalformed : GoError := .errorString 31 "token is malformed"
def ErrTokenUnverifiable : GoError := .errorString 32 "token is unverifiable"
def ErrTokenSignatureInvalid : GoError := .errorString 33 "token signature is invalid"
def ErrTokenExpired : GoError := .errorString 34 "token is expired"

/-- The dynamic type of `token.Method`: `*jwt.SigningMethodHMAC` (HS256, HS384,
HS512) or the method of another family. -/
inductive SigningMethod where
  | HMAC
  | other
deriving DecidableEq, Repr

/-- What a key function sees of a `jwt.Token`: its method and `Header["alg"]`. -/
structure Token where
  Method : SigningMethod
  alg : String
deriving DecidableEq, Repr

/-- What `ParseWithClaims` leaves behind: the claims it filled in and the flag
`Valid` of the token it returns. -/
structure Parsed where
  Claims : auth.Claims := {}
  Valid : Bool := false
deriving DecidableEq, Repr

/-- The two entry points of the library that the program calls, given by what
they return: `NewWithClaims(SigningMethodHS256, claims).SignedString(key)` and
`ParseWithClaims(tokenString, claims, keyFunc)`, the latter also depending on
the clock it reads to validate the claims. -/
structure Library where
  SignedString : auth.Claims → List UInt8 → String × Option GoError
  ParseWithClaims : String → (Token → List UInt8 × Option GoError) → Time →
    Parsed × Option GoError

/-- The dates of the claims are whole seconds, as `NewNumericDate` makes them. -/
def wholeSeconds (c : auth.Claims) : Prop :=
  (∀ t, c.IssuedAt = some t → t % Second = 0) ∧ (∀ t, c.ExpiresAt = some t → t % Second = 0)

/-- What the library documents of HS256: signing with a non-empty key succeeds
and gives a non-empty string, and a string so signed is accepted, with its
claims given back, when the key function answers the signing key for the method
HS256 and the clock is before the expiry of the claims. -/
structure Library.Sound (lib : Library) : Prop where
  sign_ok : ∀ (c : auth.Claims) (key : List UInt8), key ≠ [] →
    ∃ t, lib.SignedString c key = (t, none) ∧ t ≠ ""
  parse_signed : ∀ (c : auth.Claims) (key : List UInt8) (t : String)
    (keyFunc : Token → List UInt8 × Option GoError) (now : Time),
    lib.SignedString c key = (t, none) →
    keyFunc { Method := .HMAC, alg := "HS256" } = (key, none) →
    wholeSeconds c → (∀ exp, c.ExpiresAt = some exp → now < exp) →
    lib.ParseWithClaims t keyFunc now = ({ Claims := c, Valid := true }, none)

end jwt

namespace auth

def GenerateJWT (lib : jwt.Library) (now : Time) (userID : String) (secret : List UInt8)
    (ttl : Duration) : String × Option GoError :=
  if secret.length = 0 then
    ("", some ErrMissingSecret)
  else
    lib.SignedString
      { UserID := userID
        IssuedAt := some (NewNumericDate now)
        ExpiresAt := some (NewNumericDate (now + ttl)) } secret

/-- The key function that `ParseJWT` hands to `jwt.ParseWithClaims`. -/
def keyFunc (secret : List UInt8) (t : jwt.Token) : List UInt8 × Option GoError :=
  match t.Method with
  | .HMAC => (secret, none)
  | .other => ([], some (.errorString 23 ("unexpected signing method: " ++ t.alg)))

def ParseJWT (lib : jwt.Library) (now : Time) (tokenString : String)
    (secret : List UInt8) : Option Claims × Option GoError :=
  if secret.length = 0 then
    (none, some ErrMissingSecret)
  else
    match lib.ParseWithClaims tokenString (keyFunc secret) now with
    | (_, some err) => (none, some err)
    | (parsedToken, none) =>
      if !parsedToken.Valid then
        (none, some ErrInvalidToken)
      else
        (some parsedToken.Claims, none)

end auth

/-! ## Users (`internal/domain/user.go`, `internal/repository/user/repository.go`) -/

structure User where
  ID : String := ""
  Name : String := ""
  Email : String := ""
  Password : String := ""
deriving DecidableEq, Repr

structure UserLoginRequest where
  Email : String := ""
  Password : String := ""
deriving DecidableEq, Repr

namespace userrepository

def ErrNotFound : GoError := .errorString 15 "user not found"

/-- The interface `Repository` of the user repository, given by what
`GetUserByEmail` returns. -/
structure Repository where
  GetUserByEmail : String → User × Option GoError

end userrepository

/-! ## User service (`internal/service/user/service.go`) -/

namespace user

def ErrNotFound : GoError := .errorString 11 "company not found"
def ErrInvalidInput : GoError := .errorString 12 "invalid input"
def ErrAuthFailed : GoError := .errorString 13 "authentication failed"
def ErrTokenGenerationFailed : GoError := .errorString 14 "token generation failed"

/-- The libraries and the clock that the user service calls:
`bcrypt.CompareHashAndPassword(hashed, password)`, the token library and
`time.Now()`. -/
structure Libs where
  CompareHashAndPassword : String → String → Option GoError
  jwt : jwt.Library
  now : Time

structure Service where
  repo : userrepository.Repository
  tokenSecret : List UInt8
  tokenTTL : Duration

def NewService (repo : userrepository.Repository) (tokenSecret : List UInt8)
    (tokenTTL : Duration) : Service :=
  { repo := repo, tokenSecret := tokenSecret,
    tokenTTL := if tokenTTL ≤ 0 then Hour else tokenTTL }

def checkPasswordHash (libs : Libs) (password hashed : String) : Bool :=
  (libs.CompareHashAndPassword hashed password).isNone

def Service.AuthenticateUser (s : Service) (libs : Libs) (user : UserLoginRequest) :
    String × Option GoError :=
  match s.repo.GetUserByEmail user.Email with
  | (_, some err) =>
    if errorsIs err userrepository.ErrNotFound then ("", some ErrNotFound)
    else ("", some err)
  | (userFromDB, none) =>
    if !checkPasswordHash libs user.Password userFromDB.Password then
      ("", some (.wrapError
        ("invalid password for email " ++ user.Email ++ ": " ++ ErrAuthFailed.Error)
        ErrAuthFailed))
    else if s.tokenSecret.length = 0 then
      ("", some (.errorString 16 "token secret not configured"))
    else
      match auth.GenerateJWT libs.jwt libs.now userFromDB.ID s.tokenSecret s.tokenTTL with
      | (_, some err) => ("", some (errorfWV ErrTokenGenerationFailed err.Error))
      | (token, none) => (token, none)

end user

/-! ## Middleware (`internal/transport/http/middleware/auth_midleware.go`) -/

/-- The call `strings.SplitN(s, " ", 2)`: the part before the first space and
the part after it, or the string alone when it has no space. -/
def SplitN2 (s : String) : List String :=
  match s.data.span (fun c => c != ' ') with
  | (a, []) => [⟨a⟩]
  | (a, _ :: b) => [⟨a⟩, ⟨b⟩]

/-- Lower case of an ASCII letter. -/
def foldASCII (c : Char) : Char :=
  if 'A'.toNat ≤ c.toNat ∧ c.toNat ≤ 'Z'.toNat then Char.ofNat (c.toNat + 32) else c

/-- Go's `strings.EqualFold` as far as the program needs it: equality under
ASCII case folding, which is what Unicode simple folding amounts to when one
side is "Bearer". -/
def EqualFold (s t : String) : Bool :=
  s.data.map foldASCII == t.data.map foldASCII

namespace middleware

/-- What `RequireAuth` does with a request: abort with a status and the text of
the "error" field, or set `user_id` and `jwt_claims` and call the next handler.
The last case stands for a nil dereference of `claims`. -/
inductive Outcome where
  | abortWithStatusJSON (code : Nat) (error : String)
  | next (user_id : String) (jwt_claims : auth.Claims)
  | nilClaims
deriving DecidableEq, Repr

/-- The handler `RequireAuth(secret)` applied to a request whose
`Authorization` header is `header` (the empty string when absent). -/
def RequireAuth (lib : jwt.Library) (now : Time) (secret : List UInt8)
    (header : String) : Outcome :=
  if secret.length = 0 then
    .abortWithStatusJSON 500 "authentication not configured"
  else if header = "" then
    .abortWithStatusJSON 401 "authorization header required"
  else
    match SplitN2 header with
    | [scheme, token] =>
      if !EqualFold scheme "Bearer" then
        .abortWithStatusJSON 401 "authorization header must be Bearer token"
      else
        match auth.ParseJWT lib now token secret with
        | (_, some _) => .abortWithStatusJSON 401 "invalid or expired token"
        | (some claims, none) => .next claims.UserID claims
        | (none, none) => .nilClaims
    | _ => .abortWithStatusJSON 401 "authorization header must be Bearer token"

end middleware

/-! ## Login handler (`internal/transport/http/auth_handler.go`) -/

/-- A JSON response: the status and the fields of the object `gin.H`. -/
structure Response where
  code : Nat
  body : List (String × String)
deriving DecidableEq, Repr

/-- The handler `UsersHandler.Login`, given the service's `AuthenticateUser` and
what `ShouldBindJSON` made of the body: the payload and its error. Logging is
left out. -/
def UsersHandler.Login (service : UserLoginRequest → String × Option GoError)
    (payload : UserLoginRequest) (bindErr : Option GoError) : Response :=
  match bindErr with
  | some _ => { code := 400, body := [("error", "invalid request body")] }
  | none =>
    match service payload with
    | (_, some err) =>
      if errorsIs err user.ErrNotFound then
        { code := 404, body := [("error", "user not found")] }
      else if errorsIs err user.ErrAuthFailed then
        { code := 401, body := [("error", "invalid credentials")] }
      else if errorsIs err user.ErrTokenGenerationFailed then
        { code := 401, body := [("error", "invalid credentials")] }
      else
        { code := 500, body := [("error", "failed to authenticate")] }
    | (token, none) => { code := 200, body := [("status", "success"), ("token", token)] }

/-! ## Request bodies (`ShouldBindJSON` of gin) -/

/-- A request body as `ShouldBindJSON` reads it into a struct: either it is not
JSON that fits the struct (a syntax error, a value of the wrong type), or it is
an object, and `fields` tells for each key of the struct whether the body has
it and with what value; a key given as `null` counts as absent. -/
inductive RequestBody (α : Type) where
  | malformed
  | object (fields : α)

/-- The error of `encoding/json` on a malformed body; only its presence
matters to the handlers. -/
def jsonSyntaxError : GoError := .errorString 61 "invalid character in request body"

/-- The error of the validator for a field tagged `binding:"required"` that
holds the zero value of its type: "" for a string, 0 for a number, false for a
boolean, nil for a pointer. -/
def requiredError : GoError := .errorString 62 "Field validation failed on the 'required' tag"

/-- The keys of `domain.UserLoginRequest`. -/
structure LoginFields where
  email : Option String := none
  password : Option String := none
deriving DecidableEq, Repr

/-- The call `c.ShouldBindJSON(&payload)` for a `domain.UserLoginRequest`: the
payload as decoded, and the error of the decoding or of the `required` tags of
`Email` and `Password`. -/
def bindUserLoginRequest : RequestBody LoginFields → UserLoginRequest × Option GoError
  | .malformed => ({}, some jsonSyntaxError)
  | .object f =>
    if f.email.getD "" = "" ∨ f.password.getD "" = "" then
      ({ Email := f.email.getD "", Password := f.password.getD "" }, some requiredError)
    else
      ({ Email := f.email.getD "", Password := f.password.getD "" }, none)

/-- The handler `UsersHandler.Login` on a request body: `ShouldBindJSON`, then
the rest of the handler. -/
def UsersHandler.LoginRequest (service : UserLoginRequest → String × Option GoError)
    (body : RequestBody LoginFields) : Response :=
  UsersHandler.Login service (bindUserLoginRequest body).1 (bindUserLoginRequest body).2

/-! ## Company handlers (`internal/transport/http/company_handler.go`) -/

/-- Go's `strings.HasPrefix`. -/
def HasPrefix (s pfx : String) : Bool := pfx.data.isPrefixOf s.data

/-- Go's `strings.TrimPrefix`: `s` without the leading `pfx`, once, or `s`
itself when it does not start with `pfx`. -/
def TrimPrefix (s pfx : String) : String :=
  if HasPrefix s pfx then ⟨s.data.drop pfx.data.length⟩ else s

def validationMessage (err : GoError) : String :=
  if HasPrefix err.Error (ErrValidationError.Error ++ ": ") then
    TrimPrefix err.Error (ErrValidationError.Error ++ ": ")
  else
    err.Error

/-- The interface `CompanyService` of the HTTP layer, given by what each method
returns. -/
structure CompanyService where
  GetCompanyByID : String → Company × Option GoError
  CreateCompany : Company → Company × Option GoError
  DeleteCompanyByID : String → Option GoError
  PatchCompanyByID : PatchCompanyRequest → String → Option GoError

/-- The JSON written by a company handler: an object of string fields (`gin.H`)
or a company. -/
inductive Payload where
  | object (fields : List (String × String))
  | company (c : Company)
deriving DecidableEq, Repr

structure CompanyResponse where
  code : Nat
  body : Payload
deriving DecidableEq, Repr

structure createCompanyRequest where
  Name : String := ""
  Description : Option String := none
  AmountOfEmployees : Int := 0
  Registered : Bool := false
  Type_ : CompanyType := ""
deriving DecidableEq, Repr

/-- The method `toDomain`; `newUUID` is the string of `uuid.New()`. -/
def createCompanyRequest.toDomain (r : createCompanyRequest) (newUUID : String) : Company :=
  { ID := newUUID
    Name := r.Name
    Description := r.Description
    AmountOfEmployees := r.AmountOfEmployees
    Registered := r.Registered
    Type_ := r.Type_ }

/-- The keys of `createCompanyRequest`. -/
structure CreateFields where
  name : Option String := none
  description : Option String := none
  amount_of_employees : Option Int := none
  registered : Option Bool := none
  type_ : Option String := none
deriving DecidableEq, Repr

/-- The payload that `encoding/json` fills in from an object: an absent key
leaves the zero value. -/
def CreateFields.decoded (f : CreateFields) : createCompanyRequest :=
  { Name := f.name.getD ""
    Description := f.description
    AmountOfEmployees := f.amount_of_employees.getD 0
    Registered := f.registered.getD false
    Type_ := f.type_.getD "" }

/-- The call `c.ShouldBindJSON(&payload)` for a `createCompanyRequest`: `Name`,
`AmountOfEmployees`, `Registered` and `Type` carry `binding:"required"`. -/
def bindCreateCompanyRequest : RequestBody CreateFields → createCompanyRequest × Option GoError
  | .malformed => ({}, some jsonSyntaxError)
  | .object f =>
    if f.decoded.Name = "" ∨ f.decoded.AmountOfEmployees = 0 ∨ f.decoded.Registered = false ∨
        f.decoded.Type_ = "" then
      (f.decoded, some requiredError)
    else
      (f.decoded, none)

/-- The call `c.ShouldBindJSON(&payload)` for a `domain.PatchCompanyRequest`,
which has no `binding` tags. -/
def bindPatchCompanyRequest : RequestBody PatchCompanyRequest →
    PatchCompanyRequest × Option GoError
  | .malformed => ({}, some jsonSyntaxError)
  | .object p => (p, none)

/-- The handler `Get` for the route parameter `uuid`. Logging is left out here
and in the other handlers. -/
def CompaniesHandler.Get (service : CompanyService) (companyID : String) : CompanyResponse :=
  match service.GetCompanyByID companyID with
  | (_, some err) =>
    if err = ErrNotFound then
      { code := 404, body := .object [("error", "company not found")] }
    else
      { code := 500, body := .object [("error", "failed to fetch company")] }
  | (company, none) => { code := 200, body := .company company }

def CompaniesHandler.Create (service : CompanyService) (newUUID : String)
    (body : RequestBody CreateFields) : CompanyResponse :=
  match bindCreateCompanyRequest body with
  | (_, some _) => { code := 400, body := .object [("error", "invalid request body")] }
  | (payload, none) =>
    match service.CreateCompany (payload.toDomain newUUID) with
    | (_, some err) =>
      if errorsIs err ErrValidationError then
        { code := 400, body := .object [("error", validationMessage err)] }
      else if errorsIs err ErrUniquenessViolation then
        { code := 409, body := .object [("error", err.Error)] }
      else if errorsIs err ErrInvalidInput then
        { code := 400, body := .object [("error", err.Error)] }
      else
        { code := 500, body := .object [("error", "failed to create company")] }
    | (company, none) => { code := 201, body := .company company }

def CompaniesHandler.Patch (service : CompanyService) (companyID : String)
    (body : RequestBody PatchCompanyRequest) : CompanyResponse :=
  match bindPatchCompanyRequest body with
  | (_, some _) => { code := 400, body := .object [("error", "invalid request body")] }
  | (payload, none) =>
    match service.PatchCompanyByID payload companyID with
    | some err =>
      if errorsIs err ErrNotFound then
        { code := 404, body := .object [("error", "company not found")] }
      else if errorsIs err ErrValidationError then
        { code := 400, body := .object [("error", validationMessage err)] }
      else if errorsIs err ErrUniquenessViolation then
        { code := 409, body := .object [("error", err.Error)] }
      else if errorsIs err ErrInvalidInput then
        { code := 400, body := .object [("error", err.Error)] }
      else
        { code := 500, body := .object [("error", "failed to update company")] }
    | none => { code := 201, body := .object [("status", "success")] }

def CompaniesHandler.Delete (service : CompanyService) (companyID : String) :
    CompanyResponse :=
  match service.DeleteCompanyByID companyID with
  | some err =>
    if err = ErrNotFound then
      { code := 404, body := .object [("error", "company not found")] }
    else
      { code := 500, body := .object [("error", "failed to delete the company")] }
  | none => { code := 200, body := .object [("status", "success")] }

/-! ## Event publisher (`internal/platform/events/kafka/publisher.go`) -/

namespace kafka

/-- A JSON string, number or boolean. -/
inductive JSONScalar where
  | str (s : String)
  | num (n : Int)
  | bool (b : Bool)
deriving DecidableEq, Repr

/-- A JSON value of the event: a scalar or an object of scalars. -/
inductive JSONValue where
  | scalar (v : JSONScalar)
  | object (fields : List (String × JSONScalar))
deriving DecidableEq, Repr

/-- The object that `json.Marshal` writes for an `EventCompany`: the fields in
the order of the struct under the names of their `json` tags; `description` is
the only one tagged `omitempty` and is left out when the pointer is nil. -/
def marshalEventCompany (c : EventCompany) : List (String × JSONScalar) :=
  [("id", .str c.ID), ("name", .str c.Name)] ++
    (match c.Description with
      | none => []
      | some d => [("description", .str d)]) ++
    [("amount_of_employees", .num c.AmountOfEmployees), ("registered", .bool c.Registered),
      ("type", .str c.Type_)]

/-- The object that `json.Marshal` writes for a `CompanyEvent`; for these field
types it never fails. -/
def marshalCompanyEvent (event : CompanyEvent) : List (String × JSONValue) :=
  [("operation", .scalar (.str event.Operation)),
    ("company", .object (marshalEventCompany event.Company))]

/-- The conversion `[]byte(s)`. -/
def bytes (s : String) : List UInt8 := s.data.flatMap String.utf8EncodeChar

/-- The fields of `kafka.Message` that the publisher sets. -/
structure Message where
  Key : List UInt8
  Value : List (String × JSONValue)
  Time : Time
deriving DecidableEq, Repr

/-- The struct `Publisher`; the writer is given by what `WriteMessages` returns. -/
structure Publisher where
  topic : String
  WriteMessages : Message → Option GoError

/-- The message that `PublishCompanyEvent` builds, `now` being the reading of
`time.Now()`. -/
def Publisher.message (now : Time) (event : CompanyEvent) : Message :=
  { Key := bytes event.Company.ID, Value := marshalCompanyEvent event, Time := now }

def Publisher.PublishCompanyEvent (p : Publisher) (now : Time) (event : CompanyEvent) :
    Option GoError :=
  p.WriteMessages (Publisher.message now event)

end kafka

/-! ## MySQL repository (`internal/repository/company/mysql/repository.go`) -/

namespace mysql

def columnID : String := "id"
def columnName : String := "name"
def columnDescription : String := "description"
def columnAmountOfEmployees : String := "amount_of_employees"
def columnRegistered : String := "registered"
def columnType : String := "type"

/-- A value handed to the driver as a statement argument, or read from a
column. -/
inductive SQLValue where
  | null
  | str (s : String)
  | int (n : Int)
  | bool (b : Bool)
deriving DecidableEq, Repr

/-- An error of `ExecContext`: a `*driver.MySQLError` with its number, or any
other error. -/
inductive DriverError where
  | mysql (number : Nat) (message : String)
  | other (err : GoError)
deriving DecidableEq, Repr

/-- The driver error as a Go error value. -/
def DriverError.toGoError : DriverError → GoError
  | .mysql number message => .errorString 50 ("Error " ++ toString number ++ ": " ++ message)
  | .other err => err

def uniquenessViolation (err : DriverError) : Bool :=
  match err with
  | .mysql number _ => number == 1062
  | .other _ => false

/-- The slices `fields` and `field_values` of `createPatchRequestFields` as they
stand before its return statement. -/
def patchFields (patchCompanyRequest : PatchCompanyRequest) : List String × List SQLValue :=
  let fields : List String := []
  let field_values : List SQLValue := []
  let (fields, field_values) :=
    match patchCompanyRequest.Name with
    | some v => (fields ++ [columnName ++ " = ?"], field_values ++ [SQLValue.str v])
    | none => (fields, field_values)
  let (fields, field_values) :=
    match patchCompanyRequest.Description with
    | some v => (fields ++ [columnDescription ++ " = ?"], field_values ++ [SQLValue.str v])
    | none => (fields, field_values)
  let (fields, field_values) :=
    match patchCompanyRequest.AmountOfEmployees with
    | some v => (fields ++ [columnAmountOfEmployees ++ " = ?"], field_values ++ [SQLValue.int v])
    | none => (fields, field_values)
  let (fields, field_values) :=
    match patchCompanyRequest.Registered with
    | some v => (fields ++ [columnRegistered ++ " = ?"], field_values ++ [SQLValue.bool v])
    | none => (fields, field_values)
  let (fields, field_values) :=
    match patchCompanyRequest.Type_ with
    | some v => (fields ++ [columnType ++ " = ?"], field_values ++ [SQLValue.str v])
    | none => (fields, field_values)
  (fields, field_values)

/-- The constant `maxAlloc` of the Go runtime on a 64-bit machine, 1 << 48: the
largest number of bytes that one allocation may ask for. -/
def maxAlloc : Int := 281474976710656

/-- Whether `make([]T, 0, n)` panics for a `T` of 16 bytes, which a `string`
and an `any` both are on a 64-bit machine, as `runtime.makeslice` decides it:
the capacity is negative ("cap out of range" through `len > cap`) or its bytes
exceed `maxAlloc`. -/
def makePanics (n : Int) : Bool :=
  decide (n < 0) || decide (maxAlloc < 16 * n)

/-- The function `createPatchRequestFields`. Its two `make([]T, 0,
companyColumnSize)` panic when `makePanics` says so, which is the result
`none`. Any other capacity is taken to be granted: it only sizes the two
slices in advance, and whether the machine has the memory for a large one is
outside the model. -/
def createPatchRequestFields (patchCompanyRequest : PatchCompanyRequest) (_uuid : String)
    (companyColumnSize : Int) : Option (String × List SQLValue) :=
  if makePanics companyColumnSize then
    none
  else
    some (String.intercalate ", " (patchFields patchCompanyRequest).1,
      (patchFields patchCompanyRequest).2)

/-- The query and the arguments that `PatchCompanyByID` hands to `ExecContext`. -/
def patchStatement (patchCompanyRequest : PatchCompanyRequest) (uuid : String)
    (maxNumOfFields : Int) : Option (String × List SQLValue) :=
  match createPatchRequestFields patchCompanyRequest uuid maxNumOfFields with
  | none => none
  | some (fields, field_values) =>
    some ("UPDATE  companies SET " ++ fields ++ " WHERE id = ?", field_values ++ [.str uuid])

/-- The method `PatchCompanyByID`, given what `ExecContext` answers to a query
and its arguments: a driver error, or a result whose `RowsAffected` is an error
or a count. The result `none` is a panic. -/
def PatchCompanyByID
    (ExecContext : String → List SQLValue → Except DriverError (Except GoError Int))
    (patchCompanyRequest : PatchCompanyRequest) (uuid : String) (maxNumOfFields : Int) :
    Option (Option GoError) :=
  match patchStatement patchCompanyRequest uuid maxNumOfFields with
  | none => none
  | some (query, field_values) =>
    match ExecContext query field_values with
    | .error err =>
      if uniquenessViolation err then some (some repository.ErrUniquenessViolation)
      else some (some (.wrapError ("patch company: " ++ err.toGoError.Error) err.toGoError))
    | .ok result =>
      match result with
      | .error err => some (some (.wrapError ("delete company, rows affected: " ++ err.Error) err))
      | .ok rows => if rows = 0 then some (some repository.ErrNotFound) else some none

/-- Modelled from the spec: the table `companies` of the database behind
`sql.DB`, whose schema is not among the sources. The spec has "company rows
keyed by identifier with columns for each Company field", a store that
"persists verbatim" and uniqueness "enforced on name at the storage layer". A
row maps column names to values; the database is up and its columns hold any
value of their kind. -/
abbrev Table := List (List (String × SQLValue))

/-- The value of a column in a row. -/
def column (row : List (String × SQLValue)) (name : String) : SQLValue :=
  (row.lookup name).getD .null

/-- Modelled from the spec: `INSERT INTO companies (columns) VALUES (values)`. A
row with the same id or the same name makes the driver answer error 1062. -/
def Table.insert (t : Table) (columns : List String) (values : List SQLValue) :
    Except DriverError Table :=
  if t.any (fun r => column r columnID = column (columns.zip values) columnID ∨
      column r columnName = column (columns.zip values) columnName) then
    .error (.mysql 1062 "Duplicate entry")
  else
    .ok (t ++ [columns.zip values])

/-- Modelled from the spec: `SELECT columns FROM companies WHERE id = ?`, the
first row found, or nothing (`sql.ErrNoRows`). -/
def Table.selectByID (t : Table) (columns : List String) (id : SQLValue) :
    Option (List SQLValue) :=
  (t.find? (fun r => column r columnID = id)).map (fun r => columns.map (column r))

/-- The call `Scan(&company.ID, &company.Name, &company.Description,
&company.AmountOfEmployees, &company.Registered, &company.Type)`: NULL goes
into the pointer as nil and into nothing else. -/
def scanCompany : List SQLValue → Except GoError Company
  | [.str id, .str name, .null, .int n, .bool r, .str ty] =>
    .ok { ID := id, Name := name, Description := none, AmountOfEmployees := n,
          Registered := r, Type_ := ty }
  | [.str id, .str name, .str d, .int n, .bool r, .str ty] =>
    .ok { ID := id, Name := name, Description := some d, AmountOfEmployees := n,
          Registered := r, Type_ := ty }
  | _ => .error (.errorString 51 "sql: Scan error")

def GetCompanyByID (db : Table) (companyID : String) : Company × Option GoError :=
  match db.selectByID [columnID, columnName, columnDescription, columnAmountOfEmployees,
      columnRegistered, columnType] (.str companyID) with
  | none => ({}, some repository.ErrNotFound)
  | some values =>
    match scanCompany values with
    | .error err => ({}, some (.wrapError ("query company: " ++ err.Error) err))
    | .ok company => (company, none)

/-- The method `CreateCompany`: its results and the table afterwards. -/
def CreateCompany (db : Table) (company : Company) : (Company × Option GoError) × Table :=
  match db.insert [columnID, columnName, columnDescription, columnAmountOfEmployees,
      columnRegistered, columnType]
      [.str company.ID, .str company.Name,
        (match company.Description with
          | none => .null
          | some d => .str d),
        .int company.AmountOfEmployees, .bool company.Registered, .str company.Type_] with
  | .error err =>
    if uniquenessViolation err then (({}, some repository.ErrUniquenessViolation), db)
    else (({}, some (.wrapError ("insert company with id: " ++ err.toGoError.Error)
      err.toGoError)), db)
  | .ok db' => ((company, none), db')

/-- The repository over the table `db` as the service sees it: `GetCompanyByID`
and `CreateCompany` are the methods above, the other two are those of `rest`. -/
def repositoryAt (db : Table) (rest : Repository) : Repository :=
  { rest with
    GetCompanyByID := GetCompanyByID db
    CreateCompany := fun company => (CreateCompany db company).1 }

end mysql

/-! ## Fixtures used to evaluate the use-cases on concrete inputs -/

/-- A store error that is none of the repository sentinels. -/
def dbDown : GoError := .errorString 100 "db down"

/-- A repository in which every call succeeds; `CreateCompany` returns its
argument, as the MySQL repository does. -/
def okRepo : Repository :=
  { GetCompanyByID := fun id => ({ ID := id, Name := "TechCorp", Type_ := Corporations }, none)
    CreateCompany := fun c => (c, none)
    DeleteCompanyByID := fun _ => none
    PatchCompanyByID := fun _ _ _ => none }

/-- A repository in which every call fails with `dbDown`. -/
def downRepo : Repository :=
  { GetCompanyByID := fun _ => ({}, some dbDown)
    CreateCompany := fun _ => ({}, some dbDown)
    DeleteCompanyByID := fun _ => some dbDown
    PatchCompanyByID := fun _ _ _ => some dbDown }

/-- A publisher whose `PublishCompanyEvent` always returns nil. -/
def okPublisher : EventPublisher := { PublishCompanyEvent := fun _ => none }

/-- The company of `TestCreateCompany_Success_Publish`. -/
def techCorp : Company :=
  { ID := "company-123", Name := "TechCorp", Description := some "A software company",
    AmountOfEmployees := 100, Registered := true, Type_ := Corporations }

/-- A description of 1501 letters "é", each of 2 bytes in UTF-8. -/
def accentedDescription : String := ⟨List.replicate 1501 'é'⟩

/-- The company of `TestCreateCompany_ValidationError_NoPublish`. -/
def longNamed : Company :=
  { ID := "id", Name := "ThisNameIsWayTooLong", Description := some "desc",
    AmountOfEmployees := 10, Registered := true, Type_ := Corporations }

/-- A publisher whose `PublishCompanyEvent` always fails. -/
def failingPublisher : EventPublisher :=
  { PublishCompanyEvent := fun _ => some (.errorString 101 "kafka: broker unreachable") }

/-- A repository that reports NotFound on reads and patches and a uniqueness
violation on creation. -/
def refusingRepo : Repository :=
  { GetCompanyByID := fun _ => ({}, some repository.ErrNotFound)
    CreateCompany := fun _ => ({}, some repository.ErrUniquenessViolation)
    DeleteCompanyByID := fun _ => some repository.ErrNotFound
    PatchCompanyByID := fun _ _ _ => some repository.ErrNotFound }

/-- A repository whose errors are the service's own `ErrInvalidInput`, as a
test double in the service's package can answer. -/
def invalidInputRepo : Repository :=
  { GetCompanyByID := fun _ => ({}, some ErrInvalidInput)
    CreateCompany := fun _ => ({}, some ErrInvalidInput)
    DeleteCompanyByID := fun _ => some ErrInvalidInput
    PatchCompanyByID := fun _ _ _ => some ErrInvalidInput }

/-! A stand-in for the token library, enough to meet `jwt.Library.Sound`. A
token is five segments separated by dots: the algorithm, the two dates, one
letter `k` per byte of the key, and the user id. -/

namespace toy

/-- A date as a segment: `n` for nil, else `p` or `m` for the sign and one `i`
per nanosecond. -/
def encDate : Option Time → List Char
  | none => ['n']
  | some z => (if 0 ≤ z then 'p' else 'm') :: List.replicate z.natAbs 'i'

def decDate : List Char → Option (Option Time)
  | ['n'] => some none
  | 'p' :: r => some (some (r.length : Int))
  | 'm' :: r => some (some (-(r.length : Int)))
  | _ => none

/-- The segment before the first dot and what follows that dot. -/
def cut : List Char → Option (List Char × List Char)
  | [] => none
  | c :: cs => if c = '.' then some ([], cs) else (cut cs).map fun ab => (c :: ab.1, ab.2)

def malformed : GoError :=
  .wrapError "token is malformed: token contains an invalid number of segments"
    jwt.ErrTokenMalformed

def SignedString (c : auth.Claims) (key : List UInt8) : String × Option GoError :=
  (⟨"HS256".data ++ '.' :: (encDate c.IssuedAt ++ '.' :: (encDate c.ExpiresAt ++ '.' ::
    (List.replicate key.length 'k' ++ '.' :: c.UserID.data)))⟩, none)

def ParseWithClaims (tokenString : String)
    (keyFunc : jwt.Token → List UInt8 × Option GoError) (now : Time) :
    jwt.Parsed × Option GoError :=
  match cut tokenString.data with
  | none => ({}, some malformed)
  | some (alg, r₁) =>
    match cut r₁ with
    | none => ({}, some malformed)
    | some (iat, r₂) =>
      match cut r₂ with
      | none => ({}, some malformed)
      | some (exp, r₃) =>
        match cut r₃ with
        | none => ({}, some malformed)
        | some (sig, uid) =>
          match decDate iat, decDate exp with
          | some issued, some expires =>
            match keyFunc
              { Method := if alg = "HS256".data ∨ alg = "HS384".data ∨ alg = "HS512".data
                  then .HMAC else .other,
                alg := ⟨alg⟩ } with
            | (_, some err) =>
              ({}, some (.wrapError
                ("token is unverifiable: error while executing keyfunc: " ++ err.Error)
                jwt.ErrTokenUnverifiable))
            | (key, none) =>
              if sig ≠ List.replicate key.length 'k' then
                ({}, some (.wrapError "token signature is invalid: signature is invalid"
                  jwt.ErrTokenSignatureInvalid))
              else if expires.any (fun e => ¬ now < e) then
                ({}, some (.wrapError "token has invalid claims: token is expired"
                  jwt.ErrTokenExpired))
              else
                ({ Claims := { UserID := ⟨uid⟩, IssuedAt := issued, ExpiresAt := expires },
                   Valid := true }, none)
          | _, _ => ({}, some malformed)

def library : jwt.Library :=
  { SignedString := SignedString, ParseWithClaims := ParseWithClaims }

end toy

/-- The stored user of the fixtures; the stand-in for bcrypt accepts the
password "secret" for the hash "hash-of-secret". -/
def alice : User :=
  { ID := "user-1", Name := "Alice", Email := "alice@example.com",
    Password := "hash-of-secret" }

def userRepo : userrepository.Repository :=
  { GetUserByEmail := fun email =>
      if email = "alice@example.com" then (alice, none)
      else ({}, some userrepository.ErrNotFound) }

/-- Libraries of the fixtures, with the clock at `now`. -/
def toyLibs (now : Time) : user.Libs :=
  { CompareHashAndPassword := fun hashed password =>
      if hashed = "hash-of-" ++ password then none
      else some (.errorString 40 "crypto/bcrypt: hashedPassword is not the hash of the given password")
    jwt := toy.library
    now := now }

/-- The signing secret of the fixtures, the bytes of "key". -/
def secretKey : List UInt8 := [107, 101, 121]

/-- The login request of the fixtures: the right password of `alice`. -/
def aliceLogin : UserLoginRequest := { Email := "alice@example.com", Password := "secret" }

/-- A token library whose signing always fails. -/
def brokenSigner : jwt.Library :=
  { SignedString := fun _ _ => ("", some (.errorString 41 "signing failed"))
    ParseWithClaims := toy.ParseWithClaims }

/-- A company service in which every call fails with the given error. -/
def failingService (e : GoError) : CompanyService :=
  { GetCompanyByID := fun _ => ({}, some e)
    CreateCompany := fun _ => ({}, some e)
    DeleteCompanyByID := fun _ => some e
    PatchCompanyByID := fun _ _ => some e }

/-- A company service in which every call succeeds; `CreateCompany` returns
its argument. -/
def okService : CompanyService :=
  { GetCompanyByID := fun id => ({ ID := id, Name := "Acme", Type_ := Corporations }, none)
    CreateCompany := fun c => (c, none)
    DeleteCompanyByID := fun _ => none
    PatchCompanyByID := fun _ _ => none }

/-- The body of `TestCompaniesHandler_Create_Success`. -/
def acmeBody : RequestBody CreateFields :=
  .object { name := some "Acme", description := some "desc", amount_of_employees := some 42,
            registered := some true, type_ := some "Corporations" }

/-- A company stored before the one of the round trip. -/
def acme : Company := { ID := "company-1", Name := "Acme", Type_ := Corporations }

/-- The table after `acme` was created in an empty one. -/
def oneRowTable : mysql.Table := (mysql.CreateCompany [] acme).2

/-! ## Lemmas on errors and strings -/

theorem errorsIs_self (e : GoError) : errorsIs e e = true := by
  cases e <;> simp [errorsIs]

theorem errorsIs_errorfWV (w : GoError) (v : String) :
    errorsIs (errorfWV w v) w = true := by
  simp [errorfWV, errorsIs, errorsIs_self]

theorem len_empty : len "" = 0 := by decide

theorem validateCompanyFields_isValidation (c : Company) (e : GoError)
    (h : validateCompanyFields c = some e) : errorsIs e ErrValidationError = true := by
  unfold validateCompanyFields at h
  split_ifs at h <;> simp at h <;> subst h <;> exact errorsIs_errorfWV _ _

theorem validatePatch_isValidation (p : PatchCompanyRequest) (e : GoError)
    (h : validatePatchCompanyRequestFields p = some e) :
    errorsIs e ErrValidationError = true := by
  unfold validatePatchCompanyRequestFields at h
  split_ifs at h <;> simp at h <;> subst h <;> exact errorsIs_errorfWV _ _

theorem length_le_go (cs : List Char) : cs.length ≤ String.utf8ByteSize.go cs := by
  induction cs with
  | nil => simp [String.utf8ByteSize.go]
  | cons c cs ih =>
    have := Char.utf8Size_pos c
    simp only [List.length_cons, String.utf8ByteSize.go]
    omega

/-- A string has at most as many characters as bytes. -/
theorem length_le_len (s : String) : s.length ≤ len s := length_le_go s.data

theorem go_replicate (ch : Char) (n : Nat) :
    String.utf8ByteSize.go (List.replicate n ch) = n * ch.utf8Size := by
  induction n with
  | zero => simp [String.utf8ByteSize.go]
  | succ k ih =>
    rw [List.replicate_succ, String.utf8ByteSize.go, ih]
    ring

/-- A string of one repeated character has as many bytes as the character has,
times the number of repetitions. -/
theorem len_replicate (ch : Char) (n : Nat) :
    len ⟨List.replicate n ch⟩ = n * ch.utf8Size := go_replicate ch n

/-- A string that repeats a character that is not white space has nothing to
trim. -/
theorem TrimSpace_replicate (ch : Char) (n : Nat) (h : isSpace ch = false) :
    TrimSpace ⟨List.replicate n ch⟩ = ⟨List.replicate n ch⟩ := by
  have e : List.dropWhile isSpace (List.replicate n ch) = List.replicate n ch := by
    cases n with
    | zero => rfl
    | succ k => rw [List.replicate_succ, List.dropWhile_cons]; simp [h]
  unfold TrimSpace
  simp only [e, List.reverse_replicate]

theorem TrimSpace_accentedDescription : TrimSpace accentedDescription = accentedDescription :=
  TrimSpace_replicate 'é' 1501 (by decide)

theorem len_accentedDescription : len accentedDescription = 3002 := by
  unfold accentedDescription
  rw [len_replicate]
  decide

/-- The guard `desc != "" && len(desc) > 3000` is the test `len(desc) > 3000`. -/
theorem descTooLong_iff (d : String) :
    (TrimSpace d ≠ "" ∧ len (TrimSpace d) > 3000) ↔ 3000 < len (TrimSpace d) := by
  constructor
  · exact fun h => h.2
  · intro h
    refine ⟨?_, h⟩
    intro h0
    rw [h0, len_empty] at h
    omega

theorem TrimSpace_of_all_space (d : String) (h : ∀ ch ∈ d.data, isSpace ch = true) :
    TrimSpace d = "" := by
  have h1 : d.data.dropWhile isSpace = [] := List.dropWhile_eq_nil_iff.mpr h
  simp [TrimSpace, h1]

theorem descCheck_eq (o : Option String) :
    o.any (fun d => let desc := TrimSpace d; desc ≠ "" ∧ len desc > 3000) =
      o.any (fun d => decide (3000 < len (TrimSpace d))) := by
  cases o with
  | none => rfl
  | some d => simp only [Option.any_some]; exact decide_eq_decide.mpr (descTooLong_iff d)

theorem validateCompanyFields_eq_none_iff (c : Company) :
    validateCompanyFields c = none ↔
      len c.Name ≤ 15 ∧ (∀ d, c.Description = some d → len (TrimSpace d) ≤ 3000) ∧
        CompanyType.IsValid c.Type_ = true := by
  unfold validateCompanyFields
  rw [descCheck_eq]
  cases hd : c.Description <;> split_ifs <;> simp_all

theorem validatePatch_eq_none_iff (p : PatchCompanyRequest) :
    validatePatchCompanyRequestFields p = none ↔
      ¬ (p.Name = none ∧ p.AmountOfEmployees = none ∧ p.Registered = none ∧
          p.Type_ = none) ∧
        (∀ n, p.Name = some n → len n ≤ 15) ∧
        (∀ d, p.Description = some d → len (TrimSpace d) ≤ 3000) ∧
        (∀ t, p.Type_ = some t → CompanyType.IsValid t = true) := by
  unfold validatePatchCompanyRequestFields
  rw [descCheck_eq]
  cases hd : p.Description <;> cases hn : p.Name <;> cases ht : p.Type_ <;>
    split_ifs <;> simp_all

theorem IsValid_iff (t : CompanyType) :
    CompanyType.IsValid t = true ↔
      t = "Corporations" ∨ t = "NonProfit" ∨ t = "Cooperative" ∨
        t = "Sole Proprietorship" := by
  simp [CompanyType.IsValid, Corporations, NonProfit, Cooperative, SoleProprietor]

/-! ## Lemmas on the use-cases -/

theorem CreateCompany_of_invalid (s : Service) (c : Company) (e : GoError)
    (h : validateCompanyFields c = some e) : s.CreateCompany c = (({}, some e), []) := by
  simp [Service.CreateCompany, h]

theorem PatchCompanyByID_of_invalid (s : Service) (p : PatchCompanyRequest) (uuid : String)
    (e : GoError) (h : validatePatchCompanyRequestFields p = some e) :
    s.PatchCompanyByID p uuid = (some e, []) := by
  simp [Service.PatchCompanyByID, h]

/-- The method `publish` calls nothing but the publisher and the logger. -/
theorem storeCalls_publish (s : Service) (ev : CompanyEvent) :
    storeCalls (s.publish ev) = [] := by
  unfold Service.publish
  cases s.publisher with
  | none => rfl
  | some p => cases h : p.PublishCompanyEvent ev <;> simp [h, storeCalls]

/-- With a publisher attached, `publish` hands it the event exactly once. -/
theorem publishedEvents_publish (repo : Repository) (pub : EventPublisher)
    (ev : CompanyEvent) :
    publishedEvents ((NewService repo (some pub)).publish ev) = [ev] := by
  unfold Service.publish NewService
  cases h : pub.PublishCompanyEvent ev <;> simp [h, publishedEvents]

/-- A chain is an `errors.New` value exactly when it ends in it. -/
theorem errorsIs_errorString_iff (e : GoError) (a : Nat) (s : String) :
    errorsIs e (.errorString a s) = true ↔ e.root = .errorString a s := by
  induction e with
  | errorString b t => simp [errorsIs, GoError.root]
  | wrapError msg err ih => simp [errorsIs, GoError.root, ih]

theorem isDomainKind_of_fromStore (e : GoError) (h : fromStore e) :
    isDomainKind e = false := by
  obtain ⟨h1, h2, h3, h4⟩ := h
  have n1 : errorsIs e ErrNotFound = false := by
    rw [Bool.eq_false_iff]; exact fun hh => h1 ((errorsIs_errorString_iff e _ _).mp hh)
  have n2 : errorsIs e ErrInvalidInput = false := by
    rw [Bool.eq_false_iff]; exact fun hh => h2 ((errorsIs_errorString_iff e _ _).mp hh)
  have n3 : errorsIs e ErrUniquenessViolation = false := by
    rw [Bool.eq_false_iff]; exact fun hh => h3 ((errorsIs_errorString_iff e _ _).mp hh)
  have n4 : errorsIs e ErrValidationError = false := by
    rw [Bool.eq_false_iff]; exact fun hh => h4 ((errorsIs_errorString_iff e _ _).mp hh)
  simp [isDomainKind, n1, n2, n3, n4]

/-- An error is none of the four domain kinds exactly when its chain does not
end in one of the four sentinels of the company service. -/
theorem isDomainKind_eq_false_iff (e : GoError) : isDomainKind e = false ↔ fromStore e := by
  refine ⟨fun h => ?_, isDomainKind_of_fromStore e⟩
  simp only [isDomainKind, Bool.or_eq_false_iff] at h
  obtain ⟨⟨⟨h1, h2⟩, h3⟩, h4⟩ := h
  refine ⟨fun hr => ?_, fun hr => ?_, fun hr => ?_, fun hr => ?_⟩
  · have ht := (errorsIs_errorString_iff e _ _).mpr hr
    exact Bool.false_ne_true (h1.symm.trans ht)
  · have ht := (errorsIs_errorString_iff e _ _).mpr hr
    exact Bool.false_ne_true (h2.symm.trans ht)
  · have ht := (errorsIs_errorString_iff e _ _).mpr hr
    exact Bool.false_ne_true (h3.symm.trans ht)
  · have ht := (errorsIs_errorString_iff e _ _).mpr hr
    exact Bool.false_ne_true (h4.symm.trans ht)

/-- A store error cannot be both the store's NotFound and its uniqueness
violation. -/
theorem not_notFound_of_uniqueness (e : GoError)
    (h : errorsIs e repository.ErrUniquenessViolation = true) :
    errorsIs e repository.ErrNotFound = false := by
  rw [Bool.eq_false_iff]
  intro hn
  have h1 := (errorsIs_errorString_iff e _ _).mp h
  have h2 := (errorsIs_errorString_iff e _ _).mp hn
  rw [h1] at h2
  cases h2

/-! ## Lemmas on the stand-in token library -/

theorem toy.cut_append (a b : List Char) (h : '.' ∉ a) :
    toy.cut (a ++ '.' :: b) = some (a, b) := by
  induction a with
  | nil => simp [toy.cut]
  | cons c cs ih =>
    have hc : c ≠ '.' := fun hh => h (by simp [hh])
    have hcs : '.' ∉ cs := fun hh => h (by simp [hh])
    simp [toy.cut, hc, ih hcs]

theorem toy.dot_not_mem_encDate (o : Option Time) : '.' ∉ toy.encDate o := by
  cases o with
  | none => simp [toy.encDate]
  | some z =>
    intro h
    simp only [toy.encDate, List.mem_cons, List.mem_replicate] at h
    rcases h with h | ⟨_, h⟩
    · split_ifs at h <;> cases h
    · cases h

theorem toy.decDate_encDate (o : Option Time) : toy.decDate (toy.encDate o) = some o := by
  cases o with
  | none => rfl
  | some z =>
    by_cases hz : 0 ≤ z
    · simp only [toy.encDate, if_pos hz, toy.decDate, List.length_replicate]
      rw [Int.natAbs_of_nonneg hz]
    · simp only [toy.encDate, if_neg hz, toy.decDate, List.length_replicate]
      rw [Int.ofNat_natAbs_of_nonpos (le_of_lt (not_le.mp hz)), neg_neg]

theorem toy.sound : toy.library.Sound := by
  constructor
  · intro c key _
    refine ⟨_, rfl, ?_⟩
    intro h
    have := congrArg String.data h
    simp at this
  · intro c key t keyFunc now hsign hkey _ hexp
    have ht : t = ⟨"HS256".data ++ '.' :: (toy.encDate c.IssuedAt ++ '.' ::
        (toy.encDate c.ExpiresAt ++ '.' ::
          (List.replicate key.length 'k' ++ '.' :: c.UserID.data)))⟩ := by
      have := congrArg Prod.fst hsign
      exact this.symm
    have h1 : '.' ∉ "HS256".data := by decide
    have h4 : '.' ∉ List.replicate key.length 'k' := by
      intro h
      have := (List.mem_replicate.mp h).2
      cases this
    show toy.ParseWithClaims t keyFunc now = _
    subst ht
    unfold toy.ParseWithClaims
    simp only [toy.cut_append _ _ h1, toy.cut_append _ _ (toy.dot_not_mem_encDate _),
      toy.cut_append _ _ h4, toy.decDate_encDate]
    have hkey' : keyFunc { Method := .HMAC, alg := ⟨['H', 'S', '2', '5', '6']⟩ } =
        (key, none) := hkey
    simp only [true_or, if_true, hkey']
    have hnot' : (c.ExpiresAt.any fun e => decide (e ≤ now)) = false := by
      cases he : c.ExpiresAt with
      | none => simp
      | some e => simpa using hexp e he
    simp [hnot']

/-! ## Lemmas on tokens and authentication -/

theorem trunc_whole (t : Int) : (t - t % 1000000000) % 1000000000 = 0 := by
  omega

theorem trunc_add_whole (t d : Int) (h : d % 1000000000 = 0) :
    (t + d) - (t + d) % 1000000000 = (t - t % 1000000000) + d := by
  omega

theorem NewNumericDate_whole (t : Time) : NewNumericDate t % Second = 0 :=
  trunc_whole t

theorem NewNumericDate_add_whole (t : Time) (d : Duration) (h : d % Second = 0) :
    NewNumericDate (t + d) = NewNumericDate t + d :=
  trunc_add_whole t d h

theorem Hour_whole : Hour % Second = 0 := by decide

/-- With a sound library, a stored user, the right password and a non-empty
secret, `AuthenticateUser` issues a non-empty token that `ParseJWT` accepts
with the same secret at any instant before the expiry, giving the claims that
`GenerateJWT` built. -/
theorem authenticate_then_parse (repo : userrepository.Repository) (libs : user.Libs)
    (secret : List UInt8) (ttl : Duration) (req : UserLoginRequest) (u : User)
    (hlib : libs.jwt.Sound) (hsecret : secret ≠ [])
    (huser : repo.GetUserByEmail req.Email = (u, none))
    (hpw : user.checkPasswordHash libs req.Password u.Password = true) :
    ∃ t, (user.NewService repo secret ttl).AuthenticateUser libs req = (t, none) ∧ t ≠ "" ∧
      ∀ later, later < NewNumericDate (libs.now + (if ttl ≤ 0 then Hour else ttl)) →
        auth.ParseJWT libs.jwt later t secret =
          (some { UserID := u.ID
                  IssuedAt := some (NewNumericDate libs.now)
                  ExpiresAt := some (NewNumericDate
                    (libs.now + (if ttl ≤ 0 then Hour else ttl))) }, none) := by
  have hlen : ¬ secret.length = 0 := by
    intro h
    exact hsecret (List.length_eq_zero.mp h)
  obtain ⟨t, ht, hne⟩ := hlib.sign_ok
    { UserID := u.ID
      IssuedAt := some (NewNumericDate libs.now)
      ExpiresAt := some (NewNumericDate (libs.now + (if ttl ≤ 0 then Hour else ttl))) }
    secret hsecret
  refine ⟨t, ?_, hne, ?_⟩
  · simp only [user.Service.AuthenticateUser, user.NewService, huser, hpw, auth.GenerateJWT,
      if_neg hlen, ht]
    simp
  · intro later hlater
    have hparse := hlib.parse_signed _ secret t (auth.keyFunc secret) later ht rfl
      ⟨fun x hx => by cases hx; exact NewNumericDate_whole _,
        fun x hx => by cases hx; exact NewNumericDate_whole _⟩
      (fun x hx => by cases hx; exact hlater)
    simp only [auth.ParseJWT, if_neg hlen, hparse]
    simp

theorem trunc_near (t d : Int) :
    (t - t % 1000000000) + d - 1000000000 < (t + d) - (t + d) % 1000000000 ∧
      (t + d) - (t + d) % 1000000000 < (t - t % 1000000000) + d + 1000000000 := by
  omega

theorem NewNumericDate_add_near (t : Time) (d : Duration) :
    NewNumericDate t + d - Second < NewNumericDate (t + d) ∧
      NewNumericDate (t + d) < NewNumericDate t + d + Second :=
  trunc_near t d

/-! ## Lemmas on the middleware -/

/-- A header without a space is a single part. -/
theorem SplitN2_of_no_space (s : String) (h : ' ' ∉ s.data) : SplitN2 s = [s] := by
  have hall : ∀ c ∈ s.data, (c != ' ') = true := by
    intro c hc
    simp only [bne_iff_ne, ne_eq]
    intro hcs
    exact h (hcs ▸ hc)
  have hs : s.data.span (fun c => c != ' ') = (s.data, []) := by
    rw [List.span_eq_take_drop, List.takeWhile_eq_self_iff.mpr hall,
      List.dropWhile_eq_nil_iff.mpr hall]
  unfold SplitN2
  rw [hs]

/-- Claims come out of `ParseJWT` only with a nil error, and the two results
are never both nil. -/
theorem ParseJWT_shape (lib : jwt.Library) (now : Time) (tok : String)
    (secret : List UInt8) :
    (∃ err, auth.ParseJWT lib now tok secret = (none, some err)) ∨
      (∃ claims, auth.ParseJWT lib now tok secret = (some claims, none) ∧ secret ≠ [] ∧
        lib.ParseWithClaims tok (auth.keyFunc secret) now =
          ({ Claims := claims, Valid := true }, none)) := by
  unfold auth.ParseJWT
  by_cases hlen : secret.length = 0
  · exact Or.inl ⟨auth.ErrMissingSecret, by simp [hlen]⟩
  · have hne : secret ≠ [] := fun h => hlen (by simp [h])
    rcases hp : lib.ParseWithClaims tok (auth.keyFunc secret) now with ⟨⟨claims, valid⟩, _ | err⟩
    · cases valid
      · exact Or.inl ⟨auth.ErrInvalidToken, by simp [hlen]⟩
      · exact Or.inr ⟨claims, by simp [hlen], hne, rfl⟩
    · exact Or.inl ⟨err, by simp [hlen]⟩

/-! ## Lemmas on the handlers -/

/-- A chain is at most one `errors.New` value. -/
theorem errorsIs_exclusive (e : GoError) (a b : Nat) (s t : String)
    (h : errorsIs e (.errorString a s) = true) (hne : a ≠ b) :
    errorsIs e (.errorString b t) = false := by
  rw [Bool.eq_false_iff]
  intro hb
  have h1 := (errorsIs_errorString_iff e _ _).mp h
  have h2 := (errorsIs_errorString_iff e _ _).mp hb
  rw [h1] at h2
  injection h2 with hab
  exact hne hab

theorem ne_of_errorsIs_false (e target : GoError) (h : errorsIs e target = false) :
    e ≠ target := by
  intro heq
  rw [heq, errorsIs_self] at h
  cases h

theorem HasPrefix_append (p r : String) : HasPrefix (p ++ r) p = true := by
  simp [HasPrefix, String.data_append, List.isPrefixOf_iff_prefix]

theorem TrimPrefix_append (p r : String) : TrimPrefix (p ++ r) p = r := by
  simp [TrimPrefix, HasPrefix_append, String.data_append]

theorem validationMessage_errorfWV (r : String) :
    validationMessage (errorfWV ErrValidationError r) = r := by
  have he : (errorfWV ErrValidationError r).Error = ErrValidationError.Error ++ ": " ++ r := rfl
  simp only [validationMessage, he, HasPrefix_append, if_true, TrimPrefix_append]

/-! ## Lemmas on the MySQL repository -/

/-- The row that `CreateCompany` inserts for a company. -/
theorem mysql.column_of_inserted (c : Company) :
    let row := [mysql.columnID, mysql.columnName, mysql.columnDescription,
      mysql.columnAmountOfEmployees, mysql.columnRegistered, mysql.columnType].zip
      [mysql.SQLValue.str c.ID, .str c.Name,
        (match c.Description with
          | none => .null
          | some d => .str d),
        .int c.AmountOfEmployees, .bool c.Registered, .str c.Type_]
    mysql.column row mysql.columnID = .str c.ID ∧
      mysql.column row mysql.columnName = .str c.Name ∧
      mysql.column row mysql.columnDescription =
        (match c.Description with
          | none => .null
          | some d => .str d) ∧
      mysql.column row mysql.columnAmountOfEmployees = .int c.AmountOfEmployees ∧
      mysql.column row mysql.columnRegistered = .bool c.Registered ∧
      mysql.column row mysql.columnType = .str c.Type_ := by
  simp [mysql.column, List.lookup, mysql.columnID, mysql.columnName, mysql.columnDescription,
    mysql.columnAmountOfEmployees, mysql.columnRegistered, mysql.columnType]

/-- With no row of the same id or name, `CreateCompany` appends the row of the
company and returns the company. -/
theorem mysql.CreateCompany_of_free (t : mysql.Table) (c : Company)
    (hfree : ∀ r ∈ t, mysql.column r mysql.columnID ≠ .str c.ID ∧
      mysql.column r mysql.columnName ≠ .str c.Name) :
    mysql.CreateCompany t c = ((c, none),
      t ++ [[mysql.columnID, mysql.columnName, mysql.columnDescription,
        mysql.columnAmountOfEmployees, mysql.columnRegistered, mysql.columnType].zip
        [mysql.SQLValue.str c.ID, .str c.Name,
          (match c.Description with
            | none => .null
            | some d => .str d),
          .int c.AmountOfEmployees, .bool c.Registered, .str c.Type_]]) := by
  obtain ⟨hid, hname, -⟩ := mysql.column_of_inserted c
  have hany : (t.any fun r =>
      decide (mysql.column r mysql.columnID =
          mysql.column ([mysql.columnID, mysql.columnName, mysql.columnDescription,
            mysql.columnAmountOfEmployees, mysql.columnRegistered, mysql.columnType].zip
            [mysql.SQLValue.str c.ID, .str c.Name,
              (match c.Description with
                | none => .null
                | some d => .str d),
              .int c.AmountOfEmployees, .bool c.Registered, .str c.Type_]) mysql.columnID ∨
        mysql.column r mysql.columnName =
          mysql.column ([mysql.columnID, mysql.columnName, mysql.columnDescription,
            mysql.columnAmountOfEmployees, mysql.columnRegistered, mysql.columnType].zip
            [mysql.SQLValue.str c.ID, .str c.Name,
              (match c.Description with
                | none => .null
                | some d => .str d),
              .int c.AmountOfEmployees, .bool c.Registered, .str c.Type_])
            mysql.columnName)) = false := by
    rw [List.any_eq_false]
    intro r hr
    have := hfree r hr
    simp only [hid, hname, decide_eq_true_eq, not_or]
    exact this
  unfold mysql.CreateCompany mysql.Table.insert
  rw [if_neg (by rw [hany]; simp)]

/-- A company is read back from a table that ends with its row and has no
earlier row of the same id. -/
theorem mysql.GetCompanyByID_of_appended (t : mysql.Table) (c : Company)
    (hfree : ∀ r ∈ t, mysql.column r mysql.columnID ≠ .str c.ID) :
    mysql.GetCompanyByID
      (t ++ [[mysql.columnID, mysql.columnName, mysql.columnDescription,
        mysql.columnAmountOfEmployees, mysql.columnRegistered, mysql.columnType].zip
        [mysql.SQLValue.str c.ID, .str c.Name,
          (match c.Description with
            | none => .null
            | some d => .str d),
          .int c.AmountOfEmployees, .bool c.Registered, .str c.Type_]]) c.ID = (c, none) := by
  obtain ⟨hid, hname, hdesc, hamount, hreg, htype⟩ := mysql.column_of_inserted c
  have hnone : t.find? (fun r => decide (mysql.column r mysql.columnID = .str c.ID)) = none := by
    rw [List.find?_eq_none]
    intro r hr
    simpa using hfree r hr
  unfold mysql.GetCompanyByID mysql.Table.selectByID
  rw [List.find?_append, hnone]
  simp only [Option.none_or, List.find?_cons, hid, decide_True, Option.map_some',
    List.map_cons, List.map_nil, hname, hdesc, hamount, hreg, htype]
  cases c with
  | mk id name desc n r ty =>
    cases desc <;> rfl

/-- The assignments of `createPatchRequestFields`, by the fields that are set. -/
theorem mysql.patchFields_fst (p : PatchCompanyRequest) :
    (mysql.patchFields p).1 =
      (if p.Name.isSome then ["name = ?"] else []) ++
        (if p.Description.isSome then ["description = ?"] else []) ++
        (if p.AmountOfEmployees.isSome then ["amount_of_employees = ?"] else []) ++
        (if p.Registered.isSome then ["registered = ?"] else []) ++
        (if p.Type_.isSome then ["type = ?"] else []) := by
  obtain ⟨name, desc, amount, registered, type⟩ := p
  cases name <;> cases desc <;> cases amount <;> cases registered <;> cases type <;> rfl

/-- The values of `createPatchRequestFields`, by the fields that are set. -/
theorem mysql.patchFields_snd (p : PatchCompanyRequest) :
    (mysql.patchFields p).2 =
      p.Name.toList.map mysql.SQLValue.str ++ p.Description.toList.map mysql.SQLValue.str ++
        p.AmountOfEmployees.toList.map mysql.SQLValue.int ++
        p.Registered.toList.map mysql.SQLValue.bool ++
        p.Type_.toList.map mysql.SQLValue.str := by
  obtain ⟨name, desc, amount, registered, type⟩ := p
  cases name <;> cases desc <;> cases amount <;> cases registered <;> cases type <;> rfl

theorem mysql.patchFields_lengths (p : PatchCompanyRequest) :
    (mysql.patchFields p).2.length = (mysql.patchFields p).1.length := by
  obtain ⟨name, desc, amount, registered, type⟩ := p
  cases name <;> cases desc <;> cases amount <;> cases registered <;> cases type <;> rfl

/-- Whatever fields are set, one of name, amount_of_employees, registered and
type among them, the clause is not empty, has 1 to 5 assignments, and the query
has one "?" per assignment and one more. -/
theorem mysql.clause_well_formed :
    ∀ b₁ b₂ b₃ b₄ b₅ : Bool, (b₁ || b₃ || b₄ || b₅) = true →
      String.intercalate ", "
          ((if b₁ then ["name = ?"] else []) ++ (if b₂ then ["description = ?"] else []) ++
            (if b₃ then ["amount_of_employees = ?"] else []) ++
            (if b₄ then ["registered = ?"] else []) ++
            (if b₅ then ["type = ?"] else [])) ≠ "" ∧
        1 ≤ ((if b₁ then ["name = ?"] else []) ++ (if b₂ then ["description = ?"] else []) ++
            (if b₃ then ["amount_of_employees = ?"] else []) ++
            (if b₄ then ["registered = ?"] else []) ++
            (if b₅ then ["type = ?"] else [])).length ∧
        ((if b₁ then ["name = ?"] else []) ++ (if b₂ then ["description = ?"] else []) ++
            (if b₃ then ["amount_of_employees = ?"] else []) ++
            (if b₄ then ["registered = ?"] else []) ++
            (if b₅ then ["type = ?"] else [])).length ≤ 5 ∧
        ("UPDATE  companies SET " ++ String.intercalate ", "
          ((if b₁ then ["name = ?"] else []) ++ (if b₂ then ["description = ?"] else []) ++
            (if b₃ then ["amount_of_employees = ?"] else []) ++
            (if b₄ then ["registered = ?"] else []) ++
            (if b₅ then ["type = ?"] else [])) ++ " WHERE id = ?").data.count '?' =
          ((if b₁ then ["name = ?"] else []) ++ (if b₂ then ["description = ?"] else []) ++
            (if b₃ then ["amount_of_employees = ?"] else []) ++
            (if b₄ then ["registered = ?"] else []) ++
            (if b₅ then ["type = ?"] else [])).length + 1 := by
  decide

/-! ## Claims -/

/-- C1 (the code departs from the claim): an overlay that sets only the
description, whatever the description is, is rejected by
`validatePatchCompanyRequestFields` with "no fields provided for update",
because the guard looks at name, amount_of_employees, registered and type
only; `PatchCompanyByID` returns that error and calls nothing. -/
theorem patch_description_only_is_no_fields (d : String) (s : Service) (uuid : String) :
    validatePatchCompanyRequestFields { Description := some d } =
        some (errorfWV ErrValidationError "no fields provided for update") ∧
      s.PatchCompanyByID { Description := some d } uuid =
        (some (errorfWV ErrValidationError "no fields provided for update"), []) ∧
      (errorfWV ErrValidationError "no fields provided for update").Error =
        "validation error: no fields provided for update" := by
  refine ⟨rfl, rfl, by decide⟩

/-- C2 (the code departs from the claim): when the store's delete fails with a
connectivity error `dbDown`, which is not the store's NotFound,
`DeleteCompanyByID` still returns `ErrNotFound`, and the store's error is not
in the chain of the result. -/
theorem delete_store_failure_reported_as_not_found :
    downRepo.DeleteCompanyByID "company-123" = some dbDown ∧
      errorsIs dbDown repository.ErrNotFound = false ∧
      (Service.DeleteCompanyByID (NewService downRepo (some okPublisher)) "company-123").1 =
        some ErrNotFound ∧
      errorsIs ErrNotFound dbDown = false := by
  decide

/-- C3 (the code departs from the claim): the name "éééééééé" has 8 characters,
which is within the limit of 15, but 16 bytes, and `validateCompanyFields` and
`validatePatchCompanyRequestFields` reject it with "name exceeds the limit of
15 characters". -/
theorem name_of_eight_characters_rejected :
    "éééééééé".length = 8 ∧ len "éééééééé" = 16 ∧
      validateCompanyFields { Name := "éééééééé", Type_ := Corporations } =
        some (errorfWV ErrValidationError "name exceeds the limit of 15 characters") ∧
      validatePatchCompanyRequestFields { Name := some "éééééééé" } =
        some (errorfWV ErrValidationError "name exceeds the limit of 15 characters") := by
  decide

/-- C4 (the code departs from the claim): a description of 1501 letters "é"
has 1501 characters after `strings.TrimSpace`, which is within the limit of
3000, but 3002 bytes, and `validateCompanyFields` on a company with a valid
name and type, and `validatePatchCompanyRequestFields` on an overlay with a
valid name, reject it with "description exceeds the limit of 3000
characters". -/
theorem description_of_1501_characters_rejected :
    (TrimSpace accentedDescription).length = 1501 ∧
      len (TrimSpace accentedDescription) = 3002 ∧
      validateCompanyFields
          { Name := "Acme", Description := some accentedDescription, Type_ := Corporations } =
        some (errorfWV ErrValidationError
          "description exceeds the limit of 3000 characters") ∧
      validatePatchCompanyRequestFields
          { Name := some "Acme", Description := some accentedDescription } =
        some (errorfWV ErrValidationError
          "description exceeds the limit of 3000 characters") := by
  have hlen : len (TrimSpace accentedDescription) = 3002 := by
    rw [TrimSpace_accentedDescription, len_accentedDescription]
  have hlong : 3000 < len (TrimSpace accentedDescription) := by omega
  have hname : ¬ len "Acme" > 15 := by decide
  have htype : CompanyType.IsValid Corporations = true := by decide
  refine ⟨?_, hlen, ?_, ?_⟩
  · rw [TrimSpace_accentedDescription]
    exact List.length_replicate 1501 'é'
  · unfold validateCompanyFields
    rw [descCheck_eq]
    simp [hname, hlong]
  · unfold validatePatchCompanyRequestFields
    rw [descCheck_eq]
    simp [hname, hlong]

/-- C5: `CompanyType.IsValid` is true exactly on "Corporations", "NonProfit",
"Cooperative" and "Sole Proprietorship", and false on the empty string;
`CreateCompany` on a company whose type is any other tag, and
`PatchCompanyByID` on an overlay whose type is present and is any other tag,
return an error that is `ErrValidationError` and call nothing. -/
theorem type_tag_rule (t : CompanyType) (s : Service) (c : Company)
    (p : PatchCompanyRequest) (uuid : String) :
    (CompanyType.IsValid t = true ↔
        t = "Corporations" ∨ t = "NonProfit" ∨ t = "Cooperative" ∨
          t = "Sole Proprietorship") ∧
      CompanyType.IsValid "" = false ∧
      (CompanyType.IsValid c.Type_ = false →
        ∃ e, s.CreateCompany c = (({}, some e), []) ∧
          errorsIs e ErrValidationError = true) ∧
      (∀ ty, p.Type_ = some ty → CompanyType.IsValid ty = false →
        ∃ e, s.PatchCompanyByID p uuid = (some e, []) ∧
          errorsIs e ErrValidationError = true) := by
  refine ⟨IsValid_iff t, by decide, ?_, ?_⟩
  · intro hbad
    cases hv : validateCompanyFields c with
    | none =>
      have := ((validateCompanyFields_eq_none_iff c).mp hv).2.2
      rw [hbad] at this
      cases this
    | some e =>
      exact ⟨e, CreateCompany_of_invalid s c e hv, validateCompanyFields_isValidation c e hv⟩
  · intro ty hty hbad
    cases hv : validatePatchCompanyRequestFields p with
    | none =>
      have := ((validatePatch_eq_none_iff p).mp hv).2.2.2 ty hty
      rw [hbad] at this
      cases this
    | some e =>
      exact ⟨e, PatchCompanyByID_of_invalid s p uuid e hv,
        validatePatch_isValidation p e hv⟩

/-- Witness of C5: the tag "SoleProprietor" (the name of the constant, not its
value) is refused by create and by patch. -/
theorem type_tag_rule_witness :
    CompanyType.IsValid "SoleProprietor" = false ∧
      (∃ e, (NewService okRepo (some okPublisher)).CreateCompany
          { ID := "id", Name := "Acme", Type_ := "SoleProprietor" } = (({}, some e), []) ∧
        errorsIs e ErrValidationError = true) ∧
      (∃ e, (NewService okRepo (some okPublisher)).PatchCompanyByID
          { Type_ := some "SoleProprietor" } "id" = (some e, []) ∧
        errorsIs e ErrValidationError = true) :=
  have h := type_tag_rule "SoleProprietor" (NewService okRepo (some okPublisher))
    { ID := "id", Name := "Acme", Type_ := "SoleProprietor" }
    { Type_ := some "SoleProprietor" } "id"
  ⟨by decide, h.2.2.1 (by decide), h.2.2.2 "SoleProprietor" rfl (by decide)⟩

/-- C6, counterexample: `CreateCompany` on a company whose name is the empty
string (type valid, no description) does not fail: it calls the store with
that company, returns it with a nil error and publishes the event. -/
theorem create_accepts_empty_name :
    ({ ID := "company-1", Type_ := Corporations } : Company).Name = "" ∧
      validateCompanyFields { ID := "company-1", Type_ := Corporations } = none ∧
      (NewService okRepo (some okPublisher)).CreateCompany
          { ID := "company-1", Type_ := Corporations } =
        (({ ID := "company-1", Type_ := Corporations }, none),
          [.repoCreate { ID := "company-1", Type_ := Corporations },
            .publishCompanyEvent
              { Operation := "company.created",
                Company := { ID := "company-1", Type_ := "Corporations" } }]) := by
  decide

/-- C6, amended: every company that `CreateCompany` hands to
`store.CreateCompany` is its argument, unchanged, and has a name of at most 15
bytes, hence of at most 15 characters, and a valid type; the name may be
empty. -/
theorem create_hands_validated_company_to_store (s : Service) (c stored : Company)
    (h : Effect.repoCreate stored ∈ (s.CreateCompany c).2) :
    stored = c ∧ len stored.Name ≤ 15 ∧ stored.Name.length ≤ 15 ∧
      CompanyType.IsValid stored.Type_ = true := by
  have hpub : ∀ ev, Effect.repoCreate stored ∉ s.publish ev := by
    intro ev hmem
    unfold Service.publish at hmem
    cases hp : s.publisher with
    | none => simp [hp] at hmem
    | some p => cases hr : p.PublishCompanyEvent ev <;> simp [hp, hr] at hmem
  cases hv : validateCompanyFields c with
  | some e => simp [Service.CreateCompany, hv] at h
  | none =>
    have hok := (validateCompanyFields_eq_none_iff c).mp hv
    have hsame : stored = c := by
      unfold Service.CreateCompany at h
      rw [hv] at h
      rcases hr : s.repo.CreateCompany c with ⟨created, _ | err⟩
      · rw [hr] at h
        simp only [List.mem_cons, Effect.repoCreate.injEq] at h
        rcases h with h | h
        · exact h
        · exact absurd h (hpub _)
      · rw [hr] at h
        by_cases hu : errorsIs err repository.ErrUniquenessViolation = true <;>
          simpa [hu] using h
    subst hsame
    have := length_le_len stored.Name
    exact ⟨rfl, hok.1, by omega, hok.2.2⟩

/-- Witness of C6 amended: the store is handed the company with the empty
name. -/
theorem create_hands_validated_company_to_store_witness :
    ({ ID := "company-1", Type_ := Corporations } : Company) =
        { ID := "company-1", Type_ := Corporations } ∧
      len ({ ID := "company-1", Type_ := Corporations } : Company).Name ≤ 15 ∧
      ({ ID := "company-1", Type_ := Corporations } : Company).Name.length ≤ 15 ∧
      CompanyType.IsValid ({ ID := "company-1", Type_ := Corporations } : Company).Type_ =
        true :=
  create_hands_validated_company_to_store (NewService okRepo none)
    { ID := "company-1", Type_ := Corporations }
    { ID := "company-1", Type_ := Corporations } (by decide)

/-- C7: whenever validation fails, for whatever reason, `CreateCompany` and
`PatchCompanyByID` return an error that is `ErrValidationError` and make no
call at all: none to the store and none to the publisher. -/
theorem validation_failure_short_circuits (s : Service) (c : Company)
    (p : PatchCompanyRequest) (uuid : String) :
    (validateCompanyFields c ≠ none →
        ∃ e, s.CreateCompany c = (({}, some e), []) ∧
          errorsIs e ErrValidationError = true) ∧
      (validatePatchCompanyRequestFields p ≠ none →
        ∃ e, s.PatchCompanyByID p uuid = (some e, []) ∧
          errorsIs e ErrValidationError = true) := by
  constructor
  · intro hv
    cases hc : validateCompanyFields c with
    | none => exact absurd hc hv
    | some e =>
      exact ⟨e, CreateCompany_of_invalid s c e hc, validateCompanyFields_isValidation c e hc⟩
  · intro hv
    cases hc : validatePatchCompanyRequestFields p with
    | none => exact absurd hc hv
    | some e =>
      exact ⟨e, PatchCompanyByID_of_invalid s p uuid e hc,
        validatePatch_isValidation p e hc⟩

/-- Witness of C7: the too long name of the create test and the empty overlay
of the patch test. -/
theorem validation_failure_short_circuits_witness :
    (∃ e, (NewService okRepo (some okPublisher)).CreateCompany longNamed =
          (({}, some e), []) ∧ errorsIs e ErrValidationError = true) ∧
      (∃ e, (NewService okRepo (some okPublisher)).PatchCompanyByID {} "company-123" =
          (some e, []) ∧ errorsIs e ErrValidationError = true) :=
  have h := validation_failure_short_circuits (NewService okRepo (some okPublisher))
    longNamed {} "company-123"
  ⟨h.1 (by decide), h.2 (by decide)⟩

/-- C8, counterexample: a service built without a publisher creates the valid
company of the create test, the store succeeding, and returns the record with
a nil error, but publishes no event. -/
theorem create_without_publisher_publishes_nothing :
    validateCompanyFields techCorp = none ∧
      okRepo.CreateCompany techCorp = (techCorp, none) ∧
      ((NewService okRepo none).CreateCompany techCorp).1 = (techCorp, none) ∧
      publishedEvents ((NewService okRepo none).CreateCompany techCorp).2 = [] := by
  decide

/-- C8, amended: for a valid company on which the store's `CreateCompany`
succeeds with record `r`, `CreateCompany` returns `r` and a nil error and calls
the store once with the company. When the service has a publisher it hands it
exactly one event: operation "company.created" and a snapshot with the id,
name, description, amount_of_employees, registered and type of `r`. When the
service has no publisher (a nil publisher, which `publish` guards) no event is
published. -/
theorem create_success_publishes_record (repo : Repository) (pub : Option EventPublisher)
    (c r : Company) (hvalid : validateCompanyFields c = none)
    (hstore : repo.CreateCompany c = (r, none)) :
    ((NewService repo pub).CreateCompany c).1 = (r, none) ∧
      storeCalls ((NewService repo pub).CreateCompany c).2 = [.repoCreate c] ∧
      (pub.isSome = true →
        publishedEvents ((NewService repo pub).CreateCompany c).2 =
          [{ Operation := "company.created",
             Company := { ID := r.ID, Name := r.Name, Description := r.Description,
                          AmountOfEmployees := r.AmountOfEmployees,
                          Registered := r.Registered, Type_ := r.Type_ } }]) ∧
      (pub = none → publishedEvents ((NewService repo pub).CreateCompany c).2 = []) := by
  have hrepo : (NewService repo pub).repo = repo := rfl
  have e : (NewService repo pub).CreateCompany c =
      ((r, none), .repoCreate c :: (NewService repo pub).publish
        { Operation := "company.created", Company := toEventCompany r }) := by
    simp [Service.CreateCompany, hvalid, hrepo, hstore]
  rw [e]
  refine ⟨rfl, ?_, ?_, ?_⟩
  · simp [storeCalls, storeCalls_publish]
  · intro hsome
    obtain ⟨pb, rfl⟩ := Option.isSome_iff_exists.mp hsome
    simp [publishedEvents, publishedEvents_publish, toEventCompany]
  · intro hnone
    subst hnone
    rfl

/-- Witness of C8 amended: the company of the create test, stored by a
repository that returns its argument, with a publisher attached. -/
theorem create_success_publishes_record_witness :
    ((NewService okRepo (some okPublisher)).CreateCompany techCorp).1 = (techCorp, none) ∧
      storeCalls ((NewService okRepo (some okPublisher)).CreateCompany techCorp).2 =
        [.repoCreate techCorp] ∧
      publishedEvents ((NewService okRepo (some okPublisher)).CreateCompany techCorp).2 =
        [{ Operation := "company.created",
           Company := { ID := techCorp.ID, Name := techCorp.Name,
                        Description := techCorp.Description,
                        AmountOfEmployees := techCorp.AmountOfEmployees,
                        Registered := techCorp.Registered, Type_ := techCorp.Type_ } }] :=
  have h := create_success_publishes_record okRepo (some okPublisher) techCorp techCorp
    (by decide) rfl
  ⟨h.1, h.2.1, h.2.2.1 rfl⟩

/-- C9, counterexample: a service built without a publisher deletes and patches
successfully, the overlay being valid and the store succeeding, and publishes
no event in either case. -/
theorem delete_and_patch_without_publisher_publish_nothing :
    okRepo.DeleteCompanyByID "company-123" = none ∧
      ((NewService okRepo none).DeleteCompanyByID "company-123").1 = none ∧
      publishedEvents ((NewService okRepo none).DeleteCompanyByID "company-123").2 = [] ∧
      validatePatchCompanyRequestFields { Name := some "NewName" } = none ∧
      okRepo.PatchCompanyByID { Name := some "NewName" } "company-123" 5 = none ∧
      ((NewService okRepo none).PatchCompanyByID { Name := some "NewName" }
        "company-123").1 = none ∧
      publishedEvents ((NewService okRepo none).PatchCompanyByID { Name := some "NewName" }
        "company-123").2 = [] := by
  decide

/-- C9, amended: when the store's delete succeeds `DeleteCompanyByID` returns
nil and calls the store once with the id; when the overlay is valid and the
store's patch succeeds `PatchCompanyByID` returns nil and calls the store once
with the overlay, the id and the capacity 5. When the service has a publisher
it is handed exactly one event, of operation "company.deleted" after a delete
and "company.patched" after a patch, whose snapshot has the id and zero values
for name, description, amount_of_employees, registered and type. When the
service has no publisher (a nil publisher, which `publish` guards) no event is
published. -/
theorem delete_and_patch_publish_identifier (repo : Repository)
    (pub : Option EventPublisher) (id : String) (p : PatchCompanyRequest) :
    (repo.DeleteCompanyByID id = none →
        ((NewService repo pub).DeleteCompanyByID id).1 = none ∧
          storeCalls ((NewService repo pub).DeleteCompanyByID id).2 = [.repoDelete id] ∧
          (pub.isSome = true →
            publishedEvents ((NewService repo pub).DeleteCompanyByID id).2 =
              [{ Operation := "company.deleted",
                 Company := { ID := id, Name := "", Description := none,
                              AmountOfEmployees := 0, Registered := false,
                              Type_ := "" } }]) ∧
          (pub = none →
            publishedEvents ((NewService repo pub).DeleteCompanyByID id).2 = [])) ∧
      (validatePatchCompanyRequestFields p = none → repo.PatchCompanyByID p id 5 = none →
        ((NewService repo pub).PatchCompanyByID p id).1 = none ∧
          storeCalls ((NewService repo pub).PatchCompanyByID p id).2 =
            [.repoPatch p id 5] ∧
          (pub.isSome = true →
            publishedEvents ((NewService repo pub).PatchCompanyByID p id).2 =
              [{ Operation := "company.patched",
                 Company := { ID := id, Name := "", Description := none,
                              AmountOfEmployees := 0, Registered := false,
                              Type_ := "" } }]) ∧
          (pub = none →
            publishedEvents ((NewService repo pub).PatchCompanyByID p id).2 = [])) := by
  have hrepo : (NewService repo pub).repo = repo := rfl
  constructor
  · intro hdel
    have e : (NewService repo pub).DeleteCompanyByID id =
        (none, .repoDelete id :: (NewService repo pub).publish
          { Operation := "company.deleted", Company := { ID := id } }) := by
      simp [Service.DeleteCompanyByID, hrepo, hdel]
    rw [e]
    refine ⟨rfl, ?_, ?_, ?_⟩
    · simp [storeCalls, storeCalls_publish]
    · intro hsome
      obtain ⟨pb, rfl⟩ := Option.isSome_iff_exists.mp hsome
      simp [publishedEvents, publishedEvents_publish]
    · intro hnone
      subst hnone
      rfl
  · intro hvalid hpatch
    have e : (NewService repo pub).PatchCompanyByID p id =
        (none, .repoPatch p id 5 :: (NewService repo pub).publish
          { Operation := "company.patched", Company := { ID := id } }) := by
      simp [Service.PatchCompanyByID, hvalid, hrepo, maxNumOfFields, hpatch]
    rw [e]
    refine ⟨rfl, ?_, ?_, ?_⟩
    · simp [storeCalls, storeCalls_publish]
    · intro hsome
      obtain ⟨pb, rfl⟩ := Option.isSome_iff_exists.mp hsome
      simp [publishedEvents, publishedEvents_publish]
    · intro hnone
      subst hnone
      rfl

/-- Witness of C9 amended: the id and the overlay of the delete and patch
tests, with a publisher attached. -/
theorem delete_and_patch_publish_identifier_witness :
    publishedEvents ((NewService okRepo (some okPublisher)).DeleteCompanyByID
        "company-123").2 =
        [{ Operation := "company.deleted",
           Company := { ID := "company-123", Name := "", Description := none,
                        AmountOfEmployees := 0, Registered := false, Type_ := "" } }] ∧
      storeCalls ((NewService okRepo (some okPublisher)).PatchCompanyByID
        { Name := some "NewName" } "company-123").2 =
        [.repoPatch { Name := some "NewName" } "company-123" 5] ∧
      publishedEvents ((NewService okRepo (some okPublisher)).PatchCompanyByID
        { Name := some "NewName" } "company-123").2 =
        [{ Operation := "company.patched",
           Company := { ID := "company-123", Name := "", Description := none,
                        AmountOfEmployees := 0, Registered := false, Type_ := "" } }] :=
  have h := delete_and_patch_publish_identifier okRepo (some okPublisher) "company-123"
    { Name := some "NewName" }
  ⟨(h.1 rfl).2.2.1 rfl, ((h.2 (by decide) rfl).2).1, ((h.2 (by decide) rfl).2).2.1 rfl⟩

/-- C10: with a publisher attached, for every input and every answer of the
store, the number of `PublishCompanyEvent` calls made by `CreateCompany`,
`PatchCompanyByID` and `DeleteCompanyByID` is 1 when the use-case returns a nil
error and 0 when it returns an error; `GetCompanyByID` makes none, with or
without a publisher. -/
theorem publish_count_follows_result (repo : Repository) (pub : EventPublisher)
    (s : Service) (c : Company) (p : PatchCompanyRequest) (id : String) :
    (publishedEvents ((NewService repo (some pub)).CreateCompany c).2).length =
        (if ((NewService repo (some pub)).CreateCompany c).1.2 = none then 1 else 0) ∧
      (publishedEvents ((NewService repo (some pub)).PatchCompanyByID p id).2).length =
        (if ((NewService repo (some pub)).PatchCompanyByID p id).1 = none then 1 else 0) ∧
      (publishedEvents ((NewService repo (some pub)).DeleteCompanyByID id).2).length =
        (if ((NewService repo (some pub)).DeleteCompanyByID id).1 = none then 1 else 0) ∧
      publishedEvents (s.GetCompanyByID id).2 = [] := by
  have hrepo : (NewService repo (some pub)).repo = repo := rfl
  refine ⟨?_, ?_, ?_, ?_⟩
  · unfold Service.CreateCompany
    cases hv : validateCompanyFields c with
    | some e => simp [publishedEvents]
    | none =>
      rcases hr : repo.CreateCompany c with ⟨created, _ | err⟩
      · simp [hrepo, hr, publishedEvents, publishedEvents_publish]
      · by_cases hu : errorsIs err repository.ErrUniquenessViolation = true <;>
          simp [hrepo, hr, hu, publishedEvents]
  · unfold Service.PatchCompanyByID
    cases hv : validatePatchCompanyRequestFields p with
    | some e => simp [publishedEvents]
    | none =>
      cases hr : repo.PatchCompanyByID p id maxNumOfFields with
      | none => simp [hrepo, hr, publishedEvents, publishedEvents_publish]
      | some err =>
        by_cases hn : errorsIs err repository.ErrNotFound = true <;>
          by_cases hu : errorsIs err repository.ErrUniquenessViolation = true <;>
          simp [hrepo, hr, hn, hu, publishedEvents]
  · unfold Service.DeleteCompanyByID
    cases hr : repo.DeleteCompanyByID id with
    | none => simp [hrepo, hr, publishedEvents, publishedEvents_publish]
    | some err => simp [hrepo, hr, publishedEvents]
  · unfold Service.GetCompanyByID
    rcases hr : s.repo.GetCompanyByID id with ⟨found, _ | err⟩
    · simp [publishedEvents]
    · by_cases hn : errorsIs err repository.ErrNotFound = true <;>
        simp [hn, publishedEvents]

/-- C11: what `CreateCompany`, `PatchCompanyByID` and `DeleteCompanyByID` return
(value and error) and the calls they make on the store do not depend on the
publisher: they are the same for any two publishers, be it nil, one whose
`PublishCompanyEvent` returns nil or one whose `PublishCompanyEvent` fails. -/
theorem publisher_never_changes_result (repo : Repository)
    (pub₁ pub₂ : Option EventPublisher) (c : Company) (p : PatchCompanyRequest)
    (id : String) :
    ((NewService repo pub₁).CreateCompany c).1 = ((NewService repo pub₂).CreateCompany c).1 ∧
      storeCalls ((NewService repo pub₁).CreateCompany c).2 =
        storeCalls ((NewService repo pub₂).CreateCompany c).2 ∧
      ((NewService repo pub₁).PatchCompanyByID p id).1 =
        ((NewService repo pub₂).PatchCompanyByID p id).1 ∧
      storeCalls ((NewService repo pub₁).PatchCompanyByID p id).2 =
        storeCalls ((NewService repo pub₂).PatchCompanyByID p id).2 ∧
      ((NewService repo pub₁).DeleteCompanyByID id).1 =
        ((NewService repo pub₂).DeleteCompanyByID id).1 ∧
      storeCalls ((NewService repo pub₁).DeleteCompanyByID id).2 =
        storeCalls ((NewService repo pub₂).DeleteCompanyByID id).2 := by
  have hrepo : ∀ pub, (NewService repo pub).repo = repo := fun _ => rfl
  refine ⟨?_, ?_, ?_, ?_, ?_, ?_⟩
  all_goals simp only [Service.CreateCompany, Service.PatchCompanyByID,
    Service.DeleteCompanyByID, hrepo]
  · cases validateCompanyFields c with
    | some e => rfl
    | none =>
      rcases repo.CreateCompany c with ⟨created, _ | err⟩
      · rfl
      · by_cases hu : errorsIs err repository.ErrUniquenessViolation = true <;> simp [hu]
  · cases validateCompanyFields c with
    | some e => rfl
    | none =>
      rcases repo.CreateCompany c with ⟨created, _ | err⟩
      · simp [storeCalls, storeCalls_publish]
      · by_cases hu : errorsIs err repository.ErrUniquenessViolation = true <;> simp [hu]
  · cases validatePatchCompanyRequestFields p with
    | some e => rfl
    | none =>
      cases repo.PatchCompanyByID p id maxNumOfFields with
      | none => rfl
      | some err =>
        by_cases hn : errorsIs err repository.ErrNotFound = true <;>
          by_cases hu : errorsIs err repository.ErrUniquenessViolation = true <;>
          simp [hn, hu]
  · cases validatePatchCompanyRequestFields p with
    | some e => rfl
    | none =>
      cases repo.PatchCompanyByID p id maxNumOfFields with
      | none => simp [storeCalls, storeCalls_publish]
      | some err =>
        by_cases hn : errorsIs err repository.ErrNotFound = true <;>
          by_cases hu : errorsIs err repository.ErrUniquenessViolation = true <;>
          simp [hn, hu]
  · cases repo.DeleteCompanyByID id <;> rfl
  · cases repo.DeleteCompanyByID id with
    | none => simp [storeCalls, storeCalls_publish]
    | some err => rfl

/-- C12: `GetCompanyByID` asks the store once; when the store finds the company
it returns it unchanged with a nil error; when the store's error is its
NotFound it returns the zero-value company with `ErrNotFound`, which is not
nil; any other store error `e` comes back unchanged, `errors.Is(result, e)`,
with the zero-value company. -/
theorem get_translates_store_answer (s : Service) (id : String) (found : Company)
    (e : GoError) :
    (s.GetCompanyByID id).2 = [.repoGet id] ∧
      (s.repo.GetCompanyByID id = (found, none) →
        (s.GetCompanyByID id).1 = (found, none)) ∧
      (s.repo.GetCompanyByID id = (found, some e) →
        errorsIs e repository.ErrNotFound = true →
        (s.GetCompanyByID id).1 = ({}, some ErrNotFound)) ∧
      (s.repo.GetCompanyByID id = (found, some e) →
        errorsIs e repository.ErrNotFound = false →
        (s.GetCompanyByID id).1 = ({}, some e) ∧ errorsIs e e = true) := by
  refine ⟨?_, ?_, ?_, ?_⟩
  · unfold Service.GetCompanyByID
    rcases s.repo.GetCompanyByID id with ⟨x, _ | err⟩
    · rfl
    · by_cases hn : errorsIs err repository.ErrNotFound = true <;> simp [hn]
  · intro h
    simp [Service.GetCompanyByID, h]
  · intro h hn
    simp [Service.GetCompanyByID, h, hn]
  · intro h hn
    simp [Service.GetCompanyByID, h, hn, errorsIs_self]

/-- Witness of C12: a store that finds the company, one that reports NotFound
and one that is down. -/
theorem get_translates_store_answer_witness :
    ((NewService okRepo none).GetCompanyByID "company-123").1 =
        ({ ID := "company-123", Name := "TechCorp", Type_ := Corporations }, none) ∧
      ((NewService refusingRepo none).GetCompanyByID "missing-id").1 =
        ({}, some ErrNotFound) ∧
      ((NewService downRepo none).GetCompanyByID "any-id").1 = ({}, some dbDown) :=
  ⟨(get_translates_store_answer (NewService okRepo none) "company-123"
      { ID := "company-123", Name := "TechCorp", Type_ := Corporations } dbDown).2.1 rfl,
    (get_translates_store_answer (NewService refusingRepo none) "missing-id" {}
      repository.ErrNotFound).2.2.1 rfl (by decide),
    ((get_translates_store_answer (NewService downRepo none) "any-id" {}
      dbDown).2.2.2 rfl (by decide)).1⟩

/-- C13, counterexample: a store that answers the service's own
`ErrInvalidInput`, which is neither the store's uniqueness violation nor its
NotFound, gets it back unchanged from `CreateCompany` and `PatchCompanyByID` on
valid input, and the result is one of the domain kinds. -/
theorem store_error_of_domain_kind_passes_through :
    validateCompanyFields techCorp = none ∧
      errorsIs ErrInvalidInput repository.ErrUniquenessViolation = false ∧
      errorsIs ErrInvalidInput repository.ErrNotFound = false ∧
      ((NewService invalidInputRepo none).CreateCompany techCorp).1 =
        ({}, some ErrInvalidInput) ∧
      validatePatchCompanyRequestFields { Name := some "NewName" } = none ∧
      ((NewService invalidInputRepo none).PatchCompanyByID { Name := some "NewName" }
        "company-123").1 = some ErrInvalidInput ∧
      isDomainKind ErrInvalidInput = true := by
  decide

/-- C13, amended: for a valid input, `CreateCompany` and `PatchCompanyByID`
translate a store error `e` as follows. A uniqueness violation becomes an error
that is `ErrUniquenessViolation` and whose text is "uniqueness violation: "
followed by the store's message. On patch the store's NotFound becomes
`ErrNotFound`. Any other error is returned unchanged, so `errors.Is(result, e)`
holds, and the result is none of the four domain kinds exactly when the chain
of `e` does not end in one of the four sentinels of the service, which the
service does not check. Whenever `CreateCompany` returns an error, for any
input, it returns the zero-value company. -/
theorem store_errors_translated (repo : Repository) (pub : Option EventPublisher)
    (c : Company) (p : PatchCompanyRequest) (uuid : String) (r : Company) (e : GoError) :
    (validateCompanyFields c = none → repo.CreateCompany c = (r, some e) →
        (errorsIs e repository.ErrUniquenessViolation = true →
          ((NewService repo pub).CreateCompany c).1 =
              ({}, some (.wrapError ("uniqueness violation: " ++ e.Error)
                ErrUniquenessViolation)) ∧
            errorsIs (.wrapError ("uniqueness violation: " ++ e.Error)
              ErrUniquenessViolation) ErrUniquenessViolation = true) ∧
        (errorsIs e repository.ErrUniquenessViolation = false →
          ((NewService repo pub).CreateCompany c).1 = ({}, some e) ∧
            errorsIs e e = true ∧ (isDomainKind e = false ↔ fromStore e))) ∧
      (validatePatchCompanyRequestFields p = none →
        repo.PatchCompanyByID p uuid 5 = some e →
        (errorsIs e repository.ErrNotFound = true →
          ((NewService repo pub).PatchCompanyByID p uuid).1 = some ErrNotFound) ∧
        (errorsIs e repository.ErrUniquenessViolation = true →
          ((NewService repo pub).PatchCompanyByID p uuid).1 =
              some (.wrapError ("uniqueness violation: " ++ e.Error)
                ErrUniquenessViolation) ∧
            errorsIs (.wrapError ("uniqueness violation: " ++ e.Error)
              ErrUniquenessViolation) ErrUniquenessViolation = true) ∧
        (errorsIs e repository.ErrNotFound = false →
          errorsIs e repository.ErrUniquenessViolation = false →
          ((NewService repo pub).PatchCompanyByID p uuid).1 = some e ∧
            errorsIs e e = true ∧ (isDomainKind e = false ↔ fromStore e))) ∧
      (((NewService repo pub).CreateCompany c).1.2 ≠ none →
        ((NewService repo pub).CreateCompany c).1.1 = {}) := by
  have hrepo : (NewService repo pub).repo = repo := rfl
  have hwrap : ∀ m, errorsIs (.wrapError m ErrUniquenessViolation) ErrUniquenessViolation =
      true := by
    intro m
    simp [errorsIs, ErrUniquenessViolation]
  refine ⟨?_, ?_, ?_⟩
  · intro hv hs
    refine ⟨fun hu => ⟨?_, hwrap _⟩, fun hu => ⟨?_, errorsIs_self e,
      isDomainKind_eq_false_iff e⟩⟩
    · simp [Service.CreateCompany, hv, hrepo, hs, hu, errorfWV, ErrUniquenessViolation,
        GoError.Error]
    · simp [Service.CreateCompany, hv, hrepo, hs, hu]
  · intro hv hs
    have hs' : repo.PatchCompanyByID p uuid maxNumOfFields = some e := hs
    refine ⟨fun hn => ?_, fun hu => ⟨?_, hwrap _⟩, fun hn hu => ⟨?_, errorsIs_self e,
      isDomainKind_eq_false_iff e⟩⟩
    · simp [Service.PatchCompanyByID, hv, hrepo, hs', hn]
    · have hn := not_notFound_of_uniqueness e hu
      simp [Service.PatchCompanyByID, hv, hrepo, hs', hn, hu, errorfWV,
        ErrUniquenessViolation, GoError.Error]
    · simp [Service.PatchCompanyByID, hv, hrepo, hs', hn, hu]
  · intro herr
    unfold Service.CreateCompany at herr ⊢
    cases hv : validateCompanyFields c with
    | some err => rfl
    | none =>
      rw [hv] at herr
      rcases hs : repo.CreateCompany c with ⟨created, _ | err⟩
      · simp [hrepo, hs] at herr
      · by_cases hu : errorsIs err repository.ErrUniquenessViolation = true <;>
          simp [hrepo, hs, hu]

/-- Witness of C13 amended: the uniqueness violation of the create test, a NotFound on
patch, and a store that is down. -/
theorem store_errors_translated_witness :
    ((NewService refusingRepo (some okPublisher)).CreateCompany techCorp).1 =
        ({}, some (.wrapError "uniqueness violation: name already exists"
          ErrUniquenessViolation)) ∧
      ((NewService refusingRepo (some okPublisher)).PatchCompanyByID
        { Name := some "ExistingName" } "missing-id").1 = some ErrNotFound ∧
      ((NewService downRepo (some okPublisher)).PatchCompanyByID
        { Name := some "ExistingName" } "any-id").1 = some dbDown ∧
      isDomainKind dbDown = false :=
  have h₁ := store_errors_translated refusingRepo (some okPublisher) techCorp
    { Name := some "ExistingName" } "missing-id" {} repository.ErrUniquenessViolation
  have h₂ := store_errors_translated refusingRepo (some okPublisher) techCorp
    { Name := some "ExistingName" } "missing-id" {} repository.ErrNotFound
  have h₃ := store_errors_translated downRepo (some okPublisher) techCorp
    { Name := some "ExistingName" } "any-id" {} dbDown
  ⟨((h₁.1 (by decide) rfl).1 (by decide)).1,
    (h₂.2.1 (by decide) rfl).1 (by decide),
    ((h₃.2.1 (by decide) rfl).2.2 (by decide) (by decide)).1,
    ((h₃.2.1 (by decide) rfl).2.2 (by decide) (by decide)).2.2.mpr
      (by unfold fromStore; decide)⟩

/-- C14: on the overlay that sets the five fields to the values of a company,
`validatePatchCompanyRequestFields` gives exactly what `validateCompanyFields`
gives on the company: both accept, or both reject with the same error, reason
included. -/
theorem validation_same_on_full_and_overlay (c : Company) :
    validatePatchCompanyRequestFields (overlayOf c) = validateCompanyFields c ∧
      (validatePatchCompanyRequestFields (overlayOf c) = none ↔
        validateCompanyFields c = none) ∧
      (∀ e, validatePatchCompanyRequestFields (overlayOf c) = some e ↔
        validateCompanyFields c = some e) := by
  have h : validatePatchCompanyRequestFields (overlayOf c) = validateCompanyFields c := by
    simp [validatePatchCompanyRequestFields, validateCompanyFields, overlayOf]
  exact ⟨h, by rw [h], fun e => by rw [h]⟩

/-- C15: `AuthenticateUser` returns `ErrNotFound` when the repository's error is
its NotFound and any other repository error unchanged; when the user exists
but `checkPasswordHash` is false it returns an error that is `ErrAuthFailed`;
whenever the error is not nil the token is the empty string, and a non-empty
token is returned only when the lookup and the password check both
succeeded. -/
theorem authenticate_issues_token_only_after_checks (s : user.Service) (libs : user.Libs)
    (req : UserLoginRequest) (u : User) (e : GoError) :
    (s.repo.GetUserByEmail req.Email = (u, some e) →
        errorsIs e userrepository.ErrNotFound = true →
        s.AuthenticateUser libs req = ("", some user.ErrNotFound)) ∧
      (s.repo.GetUserByEmail req.Email = (u, some e) →
        errorsIs e userrepository.ErrNotFound = false →
        s.AuthenticateUser libs req = ("", some e)) ∧
      (s.repo.GetUserByEmail req.Email = (u, none) →
        user.checkPasswordHash libs req.Password u.Password = false →
        ∃ err, s.AuthenticateUser libs req = ("", some err) ∧
          errorsIs err user.ErrAuthFailed = true) ∧
      ((s.AuthenticateUser libs req).2 ≠ none → (s.AuthenticateUser libs req).1 = "") ∧
      ((s.AuthenticateUser libs req).1 ≠ "" →
        ∃ stored, s.repo.GetUserByEmail req.Email = (stored, none) ∧
          user.checkPasswordHash libs req.Password stored.Password = true) := by
  refine ⟨?_, ?_, ?_, ?_, ?_⟩
  · intro h hn
    simp [user.Service.AuthenticateUser, h, hn]
  · intro h hn
    simp [user.Service.AuthenticateUser, h, hn]
  · intro h hpw
    refine ⟨_, by simp [user.Service.AuthenticateUser, h, hpw]; rfl, ?_⟩
    simp [errorsIs, user.ErrAuthFailed]
  · intro herr
    unfold user.Service.AuthenticateUser at herr ⊢
    rcases hr : s.repo.GetUserByEmail req.Email with ⟨stored, _ | err⟩
    · rw [hr] at herr
      by_cases hpw : user.checkPasswordHash libs req.Password stored.Password = true
      · by_cases hlen : s.tokenSecret.length = 0
        · simp [hpw, hlen]
        · rcases hg : auth.GenerateJWT libs.jwt libs.now stored.ID s.tokenSecret
            s.tokenTTL with ⟨tok, _ | gerr⟩
          · simp [hpw, hlen, hg] at herr
          · simp [hpw, hlen, hg]
      · simp [hpw]
    · simp only
      split_ifs <;> rfl
  · intro htok
    unfold user.Service.AuthenticateUser at htok
    rcases hr : s.repo.GetUserByEmail req.Email with ⟨stored, _ | err⟩
    · rw [hr] at htok
      refine ⟨stored, rfl, ?_⟩
      by_contra hpw
      simp [hpw] at htok
    · rw [hr] at htok
      simp only at htok
      split_ifs at htok <;> simp at htok

/-- Witness of C15: an unknown email and a wrong password. -/
theorem authenticate_issues_token_only_after_checks_witness :
    (user.NewService userRepo secretKey Hour).AuthenticateUser (toyLibs 0)
        { Email := "bob@example.com", Password := "secret" } = ("", some user.ErrNotFound) ∧
      ∃ err, (user.NewService userRepo secretKey Hour).AuthenticateUser (toyLibs 0)
          { Email := "alice@example.com", Password := "guess" } = ("", some err) ∧
        errorsIs err user.ErrAuthFailed = true :=
  ⟨(authenticate_issues_token_only_after_checks (user.NewService userRepo secretKey Hour)
      (toyLibs 0) { Email := "bob@example.com", Password := "secret" } {}
      userrepository.ErrNotFound).1 (by decide) (by decide),
    (authenticate_issues_token_only_after_checks (user.NewService userRepo secretKey Hour)
      (toyLibs 0) { Email := "alice@example.com", Password := "guess" } alice
      userrepository.ErrNotFound).2.2.1 (by decide) (by decide)⟩

/-- C16, counterexample: with a TTL of 1.5 seconds and the clock 0.6 seconds
after a whole second, the token issued for the stored user is accepted one
second later and carries IssuedAt 0 and ExpiresAt 2 seconds, which is not 1.5
seconds after IssuedAt. -/
theorem expiry_not_ttl_after_issue_when_ttl_fractional :
    ∃ t, (user.NewService userRepo secretKey 1500000000).AuthenticateUser
          (toyLibs 600000000) aliceLogin = (t, none) ∧
      auth.ParseJWT toy.library 1000000000 t secretKey =
        (some { UserID := "user-1", IssuedAt := some 0, ExpiresAt := some 2000000000 },
          none) ∧
      (2000000000 : Time) ≠ 0 + 1500000000 := by
  obtain ⟨t, h₁, _, h₂⟩ := authenticate_then_parse userRepo (toyLibs 600000000) secretKey
    1500000000 aliceLogin alice toy.sound (by decide) rfl (by decide)
  exact ⟨t, h₁, h₂ 1000000000 (by decide), by decide⟩

/-- C16, amended: given a token library that meets its HS256 contract, for a
stored user whose hash matches the password and a non-empty secret,
`AuthenticateUser` returns a non-empty token that `ParseJWT` accepts with the
same secret at any instant before the expiry; the claims carry the id of the
stored user, IssuedAt is the issuing instant truncated to the second and
ExpiresAt is the instant TTL later truncated to the second, so ExpiresAt is
within one second of IssuedAt plus TTL, and exactly TTL after IssuedAt when TTL
is a whole number of seconds. TTL is the value passed to `NewService` when it
is positive and one hour otherwise. -/
theorem token_round_trip (repo : userrepository.Repository) (libs : user.Libs)
    (secret : List UInt8) (ttl : Duration) (req : UserLoginRequest) (u : User)
    (later : Time) (hlib : libs.jwt.Sound) (hsecret : secret ≠ [])
    (huser : repo.GetUserByEmail req.Email = (u, none))
    (hpw : user.checkPasswordHash libs req.Password u.Password = true)
    (hlater : later < NewNumericDate (libs.now + (if ttl ≤ 0 then Hour else ttl))) :
    ∃ t claims iat exp,
      (user.NewService repo secret ttl).AuthenticateUser libs req = (t, none) ∧ t ≠ "" ∧
      auth.ParseJWT libs.jwt later t secret = (some claims, none) ∧
      claims.UserID = u.ID ∧ claims.IssuedAt = some iat ∧ claims.ExpiresAt = some exp ∧
      iat = NewNumericDate libs.now ∧
      exp = NewNumericDate (libs.now + (if ttl ≤ 0 then Hour else ttl)) ∧
      iat + (if ttl ≤ 0 then Hour else ttl) - Second < exp ∧
      exp < iat + (if ttl ≤ 0 then Hour else ttl) + Second ∧
      ((if ttl ≤ 0 then Hour else ttl) % Second = 0 →
        exp = iat + (if ttl ≤ 0 then Hour else ttl)) ∧
      (ttl ≤ 0 → exp = iat + Hour) := by
  obtain ⟨t, h₁, hne, h₂⟩ := authenticate_then_parse repo libs secret ttl req u hlib hsecret
    huser hpw
  refine ⟨t, _, _, _, h₁, hne, h₂ later hlater, rfl, rfl, rfl, rfl, rfl,
    (NewNumericDate_add_near _ _).1, (NewNumericDate_add_near _ _).2,
    fun hw => NewNumericDate_add_whole _ _ hw, fun hz => ?_⟩
  rw [if_pos hz]
  exact NewNumericDate_add_whole _ _ Hour_whole

/-- Witness of C16 amended: a service built with TTL 0, hence one hour, issuing
at 1234567 nanoseconds and read back half an hour later. -/
theorem token_round_trip_witness :
    ∃ t claims iat exp,
      (user.NewService userRepo secretKey 0).AuthenticateUser (toyLibs 1234567)
        aliceLogin = (t, none) ∧ t ≠ "" ∧
      auth.ParseJWT (toyLibs 1234567).jwt 1800000000000 t secretKey = (some claims, none) ∧
      claims.UserID = alice.ID ∧ claims.IssuedAt = some iat ∧ claims.ExpiresAt = some exp ∧
      iat = NewNumericDate (toyLibs 1234567).now ∧
      exp = NewNumericDate ((toyLibs 1234567).now + (if (0 : Duration) ≤ 0 then Hour else 0)) ∧
      iat + (if (0 : Duration) ≤ 0 then Hour else 0) - Second < exp ∧
      exp < iat + (if (0 : Duration) ≤ 0 then Hour else 0) + Second ∧
      ((if (0 : Duration) ≤ 0 then Hour else 0) % Second = 0 →
        exp = iat + (if (0 : Duration) ≤ 0 then Hour else 0)) ∧
      ((0 : Duration) ≤ 0 → exp = iat + Hour) :=
  token_round_trip userRepo (toyLibs 1234567) secretKey 0 aliceLogin alice 1800000000000
    toy.sound (by decide) rfl (by decide) (by decide)

/-- C17, counterexample: with an empty signing secret, a stored user and the
right password, `AuthenticateUser` returns the plain error "token secret not
configured", which is not `ErrTokenGenerationFailed`, and the login handler
answers 500 "failed to authenticate". -/
theorem empty_secret_is_not_token_generation_failed :
    (user.NewService userRepo [] Hour).AuthenticateUser (toyLibs 0) aliceLogin =
        ("", some (.errorString 16 "token secret not configured")) ∧
      errorsIs (.errorString 16 "token secret not configured")
        user.ErrTokenGenerationFailed = false ∧
      UsersHandler.Login ((user.NewService userRepo [] Hour).AuthenticateUser (toyLibs 0))
          aliceLogin none =
        { code := 500, body := [("error", "failed to authenticate")] } := by
  decide

/-- C17, amended: when the lookup and the password check succeed and the
secret is not empty, a failure of `GenerateJWT` with error `e` makes
`AuthenticateUser` return the empty token and an error that is
`ErrTokenGenerationFailed`, of text "token generation failed: " followed by the
text of `e`, which the login handler answers with 401 "invalid credentials".
When the secret is empty `AuthenticateUser` returns instead the plain error
"token secret not configured", which is not `ErrTokenGenerationFailed` and
which the login handler answers with 500 "failed to authenticate". -/
theorem token_failure_surfaces (s : user.Service) (libs : user.Libs)
    (req : UserLoginRequest) (u : User) (tok : String) (e : GoError)
    (huser : s.repo.GetUserByEmail req.Email = (u, none))
    (hpw : user.checkPasswordHash libs req.Password u.Password = true) :
    (s.tokenSecret ≠ [] →
        auth.GenerateJWT libs.jwt libs.now u.ID s.tokenSecret s.tokenTTL = (tok, some e) →
        s.AuthenticateUser libs req =
            ("", some (.wrapError ("token generation failed: " ++ e.Error)
              user.ErrTokenGenerationFailed)) ∧
          errorsIs (.wrapError ("token generation failed: " ++ e.Error)
            user.ErrTokenGenerationFailed) user.ErrTokenGenerationFailed = true ∧
          UsersHandler.Login (s.AuthenticateUser libs) req none =
            { code := 401, body := [("error", "invalid credentials")] }) ∧
      (s.tokenSecret = [] →
        s.AuthenticateUser libs req =
            ("", some (.errorString 16 "token secret not configured")) ∧
          errorsIs (.errorString 16 "token secret not configured")
            user.ErrTokenGenerationFailed = false ∧
          UsersHandler.Login (s.AuthenticateUser libs) req none =
            { code := 500, body := [("error", "failed to authenticate")] }) := by
  constructor
  · intro hsecret hgen
    have hlen : ¬ s.tokenSecret.length = 0 := fun h => hsecret (List.length_eq_zero.mp h)
    have hauth : s.AuthenticateUser libs req =
        ("", some (.wrapError ("token generation failed: " ++ e.Error)
          user.ErrTokenGenerationFailed)) := by
      simp [user.Service.AuthenticateUser, huser, hpw, hlen, hgen, errorfWV,
        user.ErrTokenGenerationFailed, GoError.Error]
    refine ⟨hauth, by simp [errorsIs, user.ErrTokenGenerationFailed], ?_⟩
    simp [UsersHandler.Login, hauth, errorsIs, user.ErrTokenGenerationFailed,
      user.ErrNotFound, user.ErrAuthFailed]
  · intro hsecret
    have hauth : s.AuthenticateUser libs req =
        ("", some (.errorString 16 "token secret not configured")) := by
      simp [user.Service.AuthenticateUser, huser, hpw, hsecret]
    refine ⟨hauth, by decide, ?_⟩
    rw [UsersHandler.Login, hauth]
    decide

/-- Witness of C17 amended: a token library whose signing fails. -/
theorem token_failure_surfaces_witness :
    (user.NewService userRepo secretKey Hour).AuthenticateUser
        { toyLibs 0 with jwt := brokenSigner } aliceLogin =
        ("", some (.wrapError "token generation failed: signing failed"
          user.ErrTokenGenerationFailed)) ∧
      UsersHandler.Login ((user.NewService userRepo secretKey Hour).AuthenticateUser
          { toyLibs 0 with jwt := brokenSigner }) aliceLogin none =
        { code := 401, body := [("error", "invalid credentials")] } :=
  have h := (token_failure_surfaces (user.NewService userRepo secretKey Hour)
    { toyLibs 0 with jwt := brokenSigner } aliceLogin alice ""
    (.errorString 41 "signing failed") rfl (by decide)).1 (by decide) (by decide)
  ⟨h.1, h.2.2⟩

/-- C18, counterexample: `ParseJWT` on a string that cannot be parsed returns
nil claims and the error of the token library, "token is malformed: ...", and
that error is not `ErrInvalidToken`. -/
theorem parse_error_is_not_invalid_token :
    auth.ParseJWT toy.library 0 "not-a-token" secretKey =
        (none, some (.wrapError
          "token is malformed: token contains an invalid number of segments"
          jwt.ErrTokenMalformed)) ∧
      errorsIs (.wrapError "token is malformed: token contains an invalid number of segments"
        jwt.ErrTokenMalformed) auth.ErrInvalidToken = false := by
  decide

/-- C18, amended: `ParseJWT` fails closed, provided the token library, called
with the key function of `ParseJWT`, answers no error that is
`ErrInvalidToken`, a value of this program that the library cannot hold. With a
non-empty secret, whenever `jwt.ParseWithClaims` reports an error, `ParseJWT`
returns nil claims and that error unchanged, and it is not `ErrInvalidToken`.
The key function refuses every method that is not HMAC with the error
"unexpected signing method: " and the algorithm, and answers the secret for
HMAC. `ParseJWT` returns `ErrInvalidToken` when the library reports no error
but does not mark the token valid, and only then. Claims are returned only with
a nil error, when the library accepted the token, and the claims and the error
are never both nil. -/
theorem parse_fails_closed (lib : jwt.Library) (now : Time) (tok : String)
    (secret : List UInt8) (err : GoError) (t : jwt.Token) (parsed : jwt.Parsed)
    (claims : auth.Claims)
    (hown : ∀ p e, lib.ParseWithClaims tok (auth.keyFunc secret) now = (p, some e) →
      errorsIs e auth.ErrInvalidToken = false) :
    (secret ≠ [] → lib.ParseWithClaims tok (auth.keyFunc secret) now = (parsed, some err) →
        auth.ParseJWT lib now tok secret = (none, some err) ∧
          errorsIs err auth.ErrInvalidToken = false) ∧
      (t.Method = .other →
        auth.keyFunc secret t =
          ([], some (.errorString 23 ("unexpected signing method: " ++ t.alg)))) ∧
      (t.Method = .HMAC → auth.keyFunc secret t = (secret, none)) ∧
      (secret ≠ [] → lib.ParseWithClaims tok (auth.keyFunc secret) now = (parsed, none) →
        parsed.Valid = false →
        auth.ParseJWT lib now tok secret = (none, some auth.ErrInvalidToken)) ∧
      (∀ e, (auth.ParseJWT lib now tok secret).2 = some e →
        errorsIs e auth.ErrInvalidToken = true →
        secret ≠ [] ∧ ∃ p, lib.ParseWithClaims tok (auth.keyFunc secret) now = (p, none) ∧
          p.Valid = false) ∧
      ((auth.ParseJWT lib now tok secret).1 = some claims →
        (auth.ParseJWT lib now tok secret).2 = none ∧ secret ≠ [] ∧
          lib.ParseWithClaims tok (auth.keyFunc secret) now =
            ({ Claims := claims, Valid := true }, none)) ∧
      ((auth.ParseJWT lib now tok secret).1 = none →
        (auth.ParseJWT lib now tok secret).2 ≠ none) := by
  refine ⟨?_, ?_, ?_, ?_, ?_, ?_, ?_⟩
  · intro hne hp
    have hlen : ¬ secret.length = 0 := fun h => hne (List.length_eq_zero.mp h)
    exact ⟨by simp [auth.ParseJWT, hlen, hp], hown parsed err hp⟩
  · intro hm
    simp [auth.keyFunc, hm]
  · intro hm
    simp [auth.keyFunc, hm]
  · intro hne hp hv
    have hlen : ¬ secret.length = 0 := fun h => hne (List.length_eq_zero.mp h)
    simp [auth.ParseJWT, hlen, hp, hv]
  · intro e he hinv
    by_cases hlen : secret.length = 0
    · simp only [auth.ParseJWT, if_pos hlen, Option.some.injEq] at he
      subst he
      exact absurd hinv (by decide)
    · have hne : secret ≠ [] := fun h => hlen (by rw [h]; rfl)
      rcases hp : lib.ParseWithClaims tok (auth.keyFunc secret) now with ⟨p, _ | e'⟩
      · refine ⟨hne, p, rfl, ?_⟩
        cases hv : p.Valid with
        | false => rfl
        | true => simp [auth.ParseJWT, hlen, hp, hv] at he
      · simp only [auth.ParseJWT, if_neg hlen, hp, Option.some.injEq] at he
        subst he
        rw [hown p e' hp] at hinv
        cases hinv
  · intro hc
    rcases ParseJWT_shape lib now tok secret with ⟨e, he⟩ | ⟨c, hc', hne, hp⟩
    · rw [he] at hc
      cases hc
    · rw [hc'] at hc ⊢
      cases hc
      exact ⟨rfl, hne, hp⟩
  · intro hc
    rcases ParseJWT_shape lib now tok secret with ⟨e, he⟩ | ⟨c, hc', _, _⟩
    · rw [he]
      simp
    · rw [hc'] at hc
      cases hc

/-- Witness of C18 amended: a token signed with another key, one that declares
RS256 and one that has expired are refused with the errors of the library,
none of which is `ErrInvalidToken`. -/
theorem parse_fails_closed_witness :
    (auth.ParseJWT toy.library 2 "HS256.n.piii.kk.user-1" secretKey =
        (none, some (.wrapError "token signature is invalid: signature is invalid"
          jwt.ErrTokenSignatureInvalid)) ∧
      errorsIs (.wrapError "token signature is invalid: signature is invalid"
        jwt.ErrTokenSignatureInvalid) auth.ErrInvalidToken = false) ∧
      (auth.ParseJWT toy.library 2 "RS256.n.piii.kkk.user-1" secretKey =
        (none, some (.wrapError
          "token is unverifiable: error while executing keyfunc: unexpected signing method: RS256"
          jwt.ErrTokenUnverifiable)) ∧
      errorsIs (.wrapError
          "token is unverifiable: error while executing keyfunc: unexpected signing method: RS256"
          jwt.ErrTokenUnverifiable) auth.ErrInvalidToken = false) ∧
      (auth.ParseJWT toy.library 5 "HS256.n.piii.kkk.user-1" secretKey =
        (none, some (.wrapError "token has invalid claims: token is expired"
          jwt.ErrTokenExpired)) ∧
      errorsIs (.wrapError "token has invalid claims: token is expired"
        jwt.ErrTokenExpired) auth.ErrInvalidToken = false) :=
  ⟨(parse_fails_closed toy.library 2 "HS256.n.piii.kk.user-1" secretKey
      (.wrapError "token signature is invalid: signature is invalid"
        jwt.ErrTokenSignatureInvalid) { Method := .other, alg := "RS256" } {} {}
      (fun p e h => by
        have hv : (toy.library.ParseWithClaims "HS256.n.piii.kk.user-1"
            (auth.keyFunc secretKey) 2).2 =
            some (.wrapError "token signature is invalid: signature is invalid"
              jwt.ErrTokenSignatureInvalid) := by decide
        rw [h] at hv
        cases hv
        decide)).1 (by decide) (by decide),
    (parse_fails_closed toy.library 2 "RS256.n.piii.kkk.user-1" secretKey
      (.wrapError
        "token is unverifiable: error while executing keyfunc: unexpected signing method: RS256"
        jwt.ErrTokenUnverifiable) { Method := .other, alg := "RS256" } {} {}
      (fun p e h => by
        have hv : (toy.library.ParseWithClaims "RS256.n.piii.kkk.user-1"
            (auth.keyFunc secretKey) 2).2 =
            some (.wrapError
              "token is unverifiable: error while executing keyfunc: unexpected signing method: RS256"
              jwt.ErrTokenUnverifiable) := by decide
        rw [h] at hv
        cases hv
        decide)).1 (by decide) (by decide),
    (parse_fails_closed toy.library 5 "HS256.n.piii.kkk.user-1" secretKey
      (.wrapError "token has invalid claims: token is expired" jwt.ErrTokenExpired)
      { Method := .other, alg := "RS256" } {} {}
      (fun p e h => by
        have hv : (toy.library.ParseWithClaims "HS256.n.piii.kkk.user-1"
            (auth.keyFunc secretKey) 5).2 =
            some (.wrapError "token has invalid claims: token is expired"
              jwt.ErrTokenExpired) := by decide
        rw [h] at hv
        cases hv
        decide)).1 (by decide) (by decide)⟩

/-- C19: provided the token library never answers with `ErrMissingSecret`,
which is a value of this program, `GenerateJWT` returns the empty token
together with `ErrMissingSecret` exactly when the secret has length 0, whatever
the user id, the ttl and the clock; and when the secret has length 0 `ParseJWT`
returns nil claims and `ErrMissingSecret` for every token string, whatever the
library would make of the token. -/
theorem missing_secret_guard (lib : jwt.Library) (now : Time) (userID : String)
    (secret : List UInt8) (ttl : Duration)
    (hown : ∀ c key, (lib.SignedString c key).2 ≠ some auth.ErrMissingSecret) :
    (auth.GenerateJWT lib now userID secret ttl = ("", some auth.ErrMissingSecret) ↔
        secret.length = 0) ∧
      (secret.length = 0 → ∀ (anyLib : jwt.Library) (anyNow : Time) (tokenString : String),
        auth.ParseJWT anyLib anyNow tokenString secret = (none, some auth.ErrMissingSecret)) := by
  constructor
  · constructor
    · intro h
      by_contra hlen
      simp only [auth.GenerateJWT, if_neg hlen] at h
      exact hown _ _ (congrArg Prod.snd h)
    · intro hlen
      simp [auth.GenerateJWT, hlen]
  · intro hlen anyLib anyNow tokenString
    simp [auth.ParseJWT, hlen]

/-- Witness of C19: the stand-in library, whose signing never fails. -/
theorem missing_secret_guard_witness :
    (auth.GenerateJWT toy.library 0 "user-1" [] Hour = ("", some auth.ErrMissingSecret) ↔
        ([] : List UInt8).length = 0) ∧
      (([] : List UInt8).length = 0 →
        ∀ (anyLib : jwt.Library) (anyNow : Time) (tokenString : String),
          auth.ParseJWT anyLib anyNow tokenString [] = (none, some auth.ErrMissingSecret)) :=
  missing_secret_guard toy.library 0 "user-1" [] Hour (fun _ _ h => by cases h)

/-- C20, counterexample: with an empty secret a request without `Authorization`
header is aborted with 500 "authentication not configured", not with 401. -/
theorem unconfigured_secret_aborts_with_500 :
    middleware.RequireAuth toy.library 0 [] "" =
      .abortWithStatusJSON 500 "authentication not configured" := by
  decide

/-- C20, amended: with an empty secret `RequireAuth` aborts every request with
500 "authentication not configured". With a non-empty secret it aborts with
401 when the `Authorization` header is missing, when the header is not a
scheme and a token separated by a space with the scheme equal to "Bearer"
whatever the case of its letters (in particular when it has no space), and when
`ParseJWT` rejects the token. The next handler runs only when the secret is
not empty and `ParseJWT` accepts the token of a Bearer header, and then
`user_id` is the `UserID` of the claims; `claims` is never nil there. -/
theorem require_auth_gate (lib : jwt.Library) (now : Time) (secret : List UInt8)
    (header scheme token uid : String) (claims : auth.Claims) :
    (secret = [] → middleware.RequireAuth lib now secret header =
        .abortWithStatusJSON 500 "authentication not configured") ∧
      (secret ≠ [] → header = "" → middleware.RequireAuth lib now secret header =
        .abortWithStatusJSON 401 "authorization header required") ∧
      (secret ≠ [] → header ≠ "" →
        (∀ a b, SplitN2 header = [a, b] → EqualFold a "Bearer" = false) →
        middleware.RequireAuth lib now secret header =
          .abortWithStatusJSON 401 "authorization header must be Bearer token") ∧
      (secret ≠ [] → header ≠ "" → ' ' ∉ header.data →
        middleware.RequireAuth lib now secret header =
          .abortWithStatusJSON 401 "authorization header must be Bearer token") ∧
      (secret ≠ [] → header ≠ "" → SplitN2 header = [scheme, token] →
        EqualFold scheme "Bearer" = true →
        (auth.ParseJWT lib now token secret).2 ≠ none →
        middleware.RequireAuth lib now secret header =
          .abortWithStatusJSON 401 "invalid or expired token") ∧
      (middleware.RequireAuth lib now secret header = .next uid claims →
        secret ≠ [] ∧ uid = claims.UserID ∧
          ∃ a b, SplitN2 header = [a, b] ∧ EqualFold a "Bearer" = true ∧
            auth.ParseJWT lib now b secret = (some claims, none)) ∧
      middleware.RequireAuth lib now secret header ≠ .nilClaims := by
  have hsplit : (∃ a, SplitN2 header = [a]) ∨ ∃ a b, SplitN2 header = [a, b] := by
    unfold SplitN2
    rcases header.data.span (fun c => c != ' ') with ⟨a, _ | ⟨c, b⟩⟩
    · exact Or.inl ⟨_, rfl⟩
    · exact Or.inr ⟨_, _, rfl⟩
  have hbearer : ∀ {a b : String}, SplitN2 header = [a, b] → secret ≠ [] → header ≠ "" →
      EqualFold a "Bearer" = true →
      middleware.RequireAuth lib now secret header =
        (match auth.ParseJWT lib now b secret with
          | (_, some _) => .abortWithStatusJSON 401 "invalid or expired token"
          | (some claims, none) => .next claims.UserID claims
          | (none, none) => .nilClaims) := by
    intro a b hs hne hh hf
    have hlen : ¬ secret.length = 0 := fun h => hne (List.length_eq_zero.mp h)
    simp [middleware.RequireAuth, hlen, hh, hs, hf]
  have hother : secret ≠ [] → header ≠ "" →
      (∀ a b, SplitN2 header = [a, b] → EqualFold a "Bearer" = false) →
      middleware.RequireAuth lib now secret header =
        .abortWithStatusJSON 401 "authorization header must be Bearer token" := by
    intro hne hh hform
    have hlen : ¬ secret.length = 0 := fun h => hne (List.length_eq_zero.mp h)
    rcases hsplit with ⟨a, hs⟩ | ⟨a, b, hs⟩
    · simp [middleware.RequireAuth, hlen, hh, hs]
    · simp [middleware.RequireAuth, hlen, hh, hs, hform a b hs]
  refine ⟨?_, ?_, hother, ?_, ?_, ?_, ?_⟩
  · intro hs
    simp [middleware.RequireAuth, hs]
  · intro hne hh
    have hlen : ¬ secret.length = 0 := fun h => hne (List.length_eq_zero.mp h)
    simp [middleware.RequireAuth, hlen, hh]
  · intro hne hh hsp
    refine hother hne hh fun a b hs => ?_
    rw [SplitN2_of_no_space header hsp] at hs
    simp at hs
  · intro hne hh hs hf hrej
    rw [hbearer hs hne hh hf]
    rcases ParseJWT_shape lib now token secret with ⟨e, he⟩ | ⟨c, hc, _, _⟩
    · rw [he]
    · rw [hc] at hrej
      exact absurd rfl hrej
  · intro hnext
    by_cases hne : secret = []
    · simp [middleware.RequireAuth, hne] at hnext
    by_cases hh : header = ""
    · have hlen : ¬ secret.length = 0 := fun h => hne (List.length_eq_zero.mp h)
      simp [middleware.RequireAuth, hlen, hh] at hnext
    by_cases hform : ∀ a b, SplitN2 header = [a, b] → EqualFold a "Bearer" = false
    · rw [hother hne hh hform] at hnext
      cases hnext
    · push_neg at hform
      obtain ⟨a, b, hs, hf⟩ := hform
      have hf' : EqualFold a "Bearer" = true := by simpa using hf
      rw [hbearer hs hne hh hf'] at hnext
      rcases ParseJWT_shape lib now b secret with ⟨e, he⟩ | ⟨c, hc, _, _⟩
      · rw [he] at hnext
        cases hnext
      · rw [hc] at hnext
        simp only [middleware.Outcome.next.injEq] at hnext
        obtain ⟨h1, h2⟩ := hnext
        subst h2
        exact ⟨hne, h1.symm, a, b, hs, hf', hc⟩
  · intro hnil
    by_cases hne : secret = []
    · simp [middleware.RequireAuth, hne] at hnil
    by_cases hh : header = ""
    · have hlen : ¬ secret.length = 0 := fun h => hne (List.length_eq_zero.mp h)
      simp [middleware.RequireAuth, hlen, hh] at hnil
    by_cases hform : ∀ a b, SplitN2 header = [a, b] → EqualFold a "Bearer" = false
    · rw [hother hne hh hform] at hnil
      cases hnil
    · push_neg at hform
      obtain ⟨a, b, hs, hf⟩ := hform
      have hf' : EqualFold a "Bearer" = true := by simpa using hf
      rw [hbearer hs hne hh hf'] at hnil
      rcases ParseJWT_shape lib now b secret with ⟨e, he⟩ | ⟨c, hc, _, _⟩
      · rw [he] at hnil
        cases hnil
      · rw [hc] at hnil
        cases hnil

/-- Witness of C20 amended: a header without token part, a header with a
refused token and a header with an accepted token, the scheme in lower case. -/
theorem require_auth_gate_witness :
    middleware.RequireAuth toy.library 2 secretKey "Bearer" =
        .abortWithStatusJSON 401 "authorization header must be Bearer token" ∧
      middleware.RequireAuth toy.library 5 secretKey "Bearer HS256.n.piii.kkk.user-1" =
        .abortWithStatusJSON 401 "invalid or expired token" ∧
      (secretKey ≠ [] ∧ "user-1" = ({ UserID := "user-1", ExpiresAt := some 3 } :
          auth.Claims).UserID ∧
        ∃ a b, SplitN2 "bearer HS256.n.piii.kkk.user-1" = [a, b] ∧
          EqualFold a "Bearer" = true ∧
          auth.ParseJWT toy.library 2 b secretKey =
            (some { UserID := "user-1", ExpiresAt := some 3 }, none)) :=
  ⟨(require_auth_gate toy.library 2 secretKey "Bearer" "" "" "" {}).2.2.2.1
      (by decide) (by decide) (by decide),
    (require_auth_gate toy.library 5 secretKey "Bearer HS256.n.piii.kkk.user-1" "Bearer"
      "HS256.n.piii.kkk.user-1" "" {}).2.2.2.2.1 (by decide) (by decide) (by decide)
      (by decide) (by decide),
    (require_auth_gate toy.library 2 secretKey "bearer HS256.n.piii.kkk.user-1" "" ""
      "user-1" { UserID := "user-1", ExpiresAt := some 3 }).2.2.2.2.2.1 (by decide)⟩

/-- C21, counterexample: for the stored users of the fixtures, a login with an
unknown email is answered 404 "user not found" and a login with a wrong
password 401 "invalid credentials"; the two responses differ. -/
theorem login_tells_unknown_email_from_wrong_password :
    UsersHandler.LoginRequest
        ((user.NewService userRepo secretKey Hour).AuthenticateUser (toyLibs 0))
        (.object { email := some "bob@example.com", password := some "secret" }) =
        { code := 404, body := [("error", "user not found")] } ∧
      UsersHandler.LoginRequest
        ((user.NewService userRepo secretKey Hour).AuthenticateUser (toyLibs 0))
        (.object { email := some "alice@example.com", password := some "guess" }) =
        { code := 401, body := [("error", "invalid credentials")] } ∧
      ({ code := 404, body := [("error", "user not found")] } : Response) ≠
        { code := 401, body := [("error", "invalid credentials")] } := by
  decide

/-- C21, amended: the login handler answers 404 "user not found" when the
service reports NotFound and 401 with the generic message "invalid
credentials" when it reports AuthFailed, also for wrapped errors; the two
responses differ in status and in body. The generic 401 is what AuthFailed and
TokenGenerationFailed share. -/
theorem login_not_found_is_404 (service : UserLoginRequest → String × Option GoError)
    (payload : UserLoginRequest) (tok : String) (e : GoError) :
    (service payload = (tok, some e) → errorsIs e user.ErrNotFound = true →
        UsersHandler.Login service payload none =
          { code := 404, body := [("error", "user not found")] }) ∧
      (service payload = (tok, some e) → errorsIs e user.ErrAuthFailed = true →
        UsersHandler.Login service payload none =
          { code := 401, body := [("error", "invalid credentials")] }) ∧
      (service payload = (tok, some e) → errorsIs e user.ErrTokenGenerationFailed = true →
        UsersHandler.Login service payload none =
          { code := 401, body := [("error", "invalid credentials")] }) ∧
      ({ code := 404, body := [("error", "user not found")] } : Response) ≠
        { code := 401, body := [("error", "invalid credentials")] } := by
  refine ⟨?_, ?_, ?_, by decide⟩
  · intro hs hn
    simp [UsersHandler.Login, hs, hn]
  · intro hs ha
    have hn : errorsIs e user.ErrNotFound = false :=
      errorsIs_exclusive e 13 11 _ _ ha (by decide)
    simp [UsersHandler.Login, hs, hn, ha]
  · intro hs ht
    have hn : errorsIs e user.ErrNotFound = false :=
      errorsIs_exclusive e 14 11 _ _ ht (by decide)
    have ha : errorsIs e user.ErrAuthFailed = false :=
      errorsIs_exclusive e 14 13 _ _ ht (by decide)
    simp [UsersHandler.Login, hs, hn, ha, ht]

/-- Witness of C21 amended: a service that reports NotFound and one that
reports a wrapped AuthFailed. -/
theorem login_not_found_is_404_witness :
    UsersHandler.Login (fun _ => ("", some user.ErrNotFound)) aliceLogin none =
        { code := 404, body := [("error", "user not found")] } ∧
      UsersHandler.Login
        (fun _ => ("", some (.wrapError "invalid password for email a: authentication failed"
          user.ErrAuthFailed))) aliceLogin none =
        { code := 401, body := [("error", "invalid credentials")] } :=
  ⟨(login_not_found_is_404 (fun _ => ("", some user.ErrNotFound)) aliceLogin ""
      user.ErrNotFound).1 rfl (by decide),
    (login_not_found_is_404
      (fun _ => ("", some (.wrapError "invalid password for email a: authentication failed"
        user.ErrAuthFailed))) aliceLogin ""
      (.wrapError "invalid password for email a: authentication failed"
        user.ErrAuthFailed)).2.1 rfl (by decide)⟩

/-- C22: on a body that binds, the login handler answers 200 with status
"success" and the token when `AuthenticateUser` succeeds, 404 when its error is
`ErrNotFound`, 401 when it is `ErrAuthFailed` or `ErrTokenGenerationFailed`,
wrapped or not, and 500 "failed to authenticate" for every other error. A body
that fails binding, as a body without email or without password does, is
answered 400 "invalid request body" whatever the service, which is not
called. -/
theorem login_status_mapping (service other : UserLoginRequest → String × Option GoError)
    (payload : UserLoginRequest) (body : RequestBody LoginFields) (f : LoginFields)
    (tok : String) (e : GoError) :
    (bindUserLoginRequest body = (payload, none) →
        UsersHandler.LoginRequest service body = UsersHandler.Login service payload none) ∧
      (service payload = (tok, none) →
        UsersHandler.Login service payload none =
          { code := 200, body := [("status", "success"), ("token", tok)] }) ∧
      (service payload = (tok, some e) → errorsIs e user.ErrNotFound = true →
        UsersHandler.Login service payload none =
          { code := 404, body := [("error", "user not found")] }) ∧
      (service payload = (tok, some e) → errorsIs e user.ErrAuthFailed = true →
        UsersHandler.Login service payload none =
          { code := 401, body := [("error", "invalid credentials")] }) ∧
      (service payload = (tok, some e) → errorsIs e user.ErrTokenGenerationFailed = true →
        UsersHandler.Login service payload none =
          { code := 401, body := [("error", "invalid credentials")] }) ∧
      (service payload = (tok, some e) → errorsIs e user.ErrNotFound = false →
        errorsIs e user.ErrAuthFailed = false →
        errorsIs e user.ErrTokenGenerationFailed = false →
        UsersHandler.Login service payload none =
          { code := 500, body := [("error", "failed to authenticate")] }) ∧
      ((bindUserLoginRequest body).2 ≠ none →
        UsersHandler.LoginRequest service body =
            { code := 400, body := [("error", "invalid request body")] } ∧
          UsersHandler.LoginRequest other body = UsersHandler.LoginRequest service body) ∧
      (f.email = none ∨ f.password = none →
        (bindUserLoginRequest (.object f)).2 ≠ none) ∧
      (bindUserLoginRequest .malformed).2 ≠ none := by
  refine ⟨?_, ?_, ?_, ?_, ?_, ?_, ?_, ?_, ?_⟩
  · intro hb
    simp [UsersHandler.LoginRequest, hb]
  · intro hs
    simp [UsersHandler.Login, hs]
  · intro hs hn
    simp [UsersHandler.Login, hs, hn]
  · intro hs ha
    have hn : errorsIs e user.ErrNotFound = false :=
      errorsIs_exclusive e 13 11 _ _ ha (by decide)
    simp [UsersHandler.Login, hs, hn, ha]
  · intro hs ht
    have hn : errorsIs e user.ErrNotFound = false :=
      errorsIs_exclusive e 14 11 _ _ ht (by decide)
    have ha : errorsIs e user.ErrAuthFailed = false :=
      errorsIs_exclusive e 14 13 _ _ ht (by decide)
    simp [UsersHandler.Login, hs, hn, ha, ht]
  · intro hs hn ha ht
    simp [UsersHandler.Login, hs, hn, ha, ht]
  · intro hb
    have h400 : ∀ svc, UsersHandler.LoginRequest svc body =
        { code := 400, body := [("error", "invalid request body")] } := by
      intro svc
      unfold UsersHandler.LoginRequest UsersHandler.Login
      cases hbe : (bindUserLoginRequest body).2 with
      | none => exact absurd hbe hb
      | some err => rfl
    exact ⟨h400 service, by rw [h400 other, h400 service]⟩
  · intro hmiss
    rcases hmiss with h | h <;> simp [bindUserLoginRequest, h]
  · simp [bindUserLoginRequest]

/-- Witness of C22: the empty object of the integration test, and a token
generation failure wrapped by the service. -/
theorem login_status_mapping_witness :
    UsersHandler.LoginRequest (fun _ => ("token", none)) (.object {}) =
        { code := 400, body := [("error", "invalid request body")] } ∧
      UsersHandler.Login
        (fun _ => ("", some (errorfWV user.ErrTokenGenerationFailed "signing failed")))
        aliceLogin none = { code := 401, body := [("error", "invalid credentials")] } ∧
      UsersHandler.Login (fun _ => ("", some dbDown)) aliceLogin none =
        { code := 500, body := [("error", "failed to authenticate")] } :=
  ⟨((login_status_mapping (fun _ => ("token", none)) (fun _ => ("token", none)) {}
      (.object {}) {} "" dbDown).2.2.2.2.2.2.1 (by decide)).1,
    (login_status_mapping
      (fun _ => ("", some (errorfWV user.ErrTokenGenerationFailed "signing failed")))
      (fun _ => ("token", none)) aliceLogin (.object {}) {} ""
      (errorfWV user.ErrTokenGenerationFailed "signing failed")).2.2.2.2.1 rfl (by decide),
    (login_status_mapping (fun _ => ("", some dbDown)) (fun _ => ("token", none)) aliceLogin
      (.object {}) {} "" dbDown).2.2.2.2.2.1 rfl (by decide) (by decide) (by decide)⟩

/-- C23: on a body that binds, the Create and Patch handlers answer a service
error by its kind, wrapped or not: ValidationError 400 with the validation
message, UniquenessViolation 409 and InvalidInput 400 with the text of the
error; Patch answers NotFound with 404 "company not found"; every other error
gets 500 with a fixed message. On success Create answers 201 with the company
that the service returned and Patch answers 201 with status "success". -/
theorem create_patch_status_mapping (service : CompanyService) (newUUID companyID : String)
    (cbody : RequestBody CreateFields) (payload : createCompanyRequest)
    (pbody : RequestBody PatchCompanyRequest) (overlay : PatchCompanyRequest)
    (c : Company) (e : GoError) :
    (bindCreateCompanyRequest cbody = (payload, none) →
        (service.CreateCompany (payload.toDomain newUUID) = (c, none) →
          CompaniesHandler.Create service newUUID cbody = { code := 201, body := .company c }) ∧
        (service.CreateCompany (payload.toDomain newUUID) = (c, some e) →
          (errorsIs e ErrValidationError = true →
            CompaniesHandler.Create service newUUID cbody =
              { code := 400, body := .object [("error", validationMessage e)] }) ∧
          (errorsIs e ErrUniquenessViolation = true →
            CompaniesHandler.Create service newUUID cbody =
              { code := 409, body := .object [("error", e.Error)] }) ∧
          (errorsIs e ErrInvalidInput = true →
            CompaniesHandler.Create service newUUID cbody =
              { code := 400, body := .object [("error", e.Error)] }) ∧
          (errorsIs e ErrValidationError = false →
            errorsIs e ErrUniquenessViolation = false →
            errorsIs e ErrInvalidInput = false →
            CompaniesHandler.Create service newUUID cbody =
              { code := 500, body := .object [("error", "failed to create company")] }))) ∧
      (bindPatchCompanyRequest pbody = (overlay, none) →
        (service.PatchCompanyByID overlay companyID = none →
          CompaniesHandler.Patch service companyID pbody =
            { code := 201, body := .object [("status", "success")] }) ∧
        (service.PatchCompanyByID overlay companyID = some e →
          (errorsIs e ErrNotFound = true →
            CompaniesHandler.Patch service companyID pbody =
              { code := 404, body := .object [("error", "company not found")] }) ∧
          (errorsIs e ErrValidationError = true →
            CompaniesHandler.Patch service companyID pbody =
              { code := 400, body := .object [("error", validationMessage e)] }) ∧
          (errorsIs e ErrUniquenessViolation = true →
            CompaniesHandler.Patch service companyID pbody =
              { code := 409, body := .object [("error", e.Error)] }) ∧
          (errorsIs e ErrInvalidInput = true →
            CompaniesHandler.Patch service companyID pbody =
              { code := 400, body := .object [("error", e.Error)] }) ∧
          (errorsIs e ErrNotFound = false → errorsIs e ErrValidationError = false →
            errorsIs e ErrUniquenessViolation = false →
            errorsIs e ErrInvalidInput = false →
            CompaniesHandler.Patch service companyID pbody =
              { code := 500, body := .object [("error", "failed to update company")] }))) := by
  constructor
  · intro hb
    refine ⟨fun hs => ?_, fun hs => ⟨fun hv => ?_, fun hu => ?_, fun hi => ?_,
      fun hv hu hi => ?_⟩⟩
    · simp [CompaniesHandler.Create, hb, hs]
    · simp [CompaniesHandler.Create, hb, hs, hv]
    · have hv : errorsIs e ErrValidationError = false :=
        errorsIs_exclusive e 3 4 _ _ hu (by decide)
      simp [CompaniesHandler.Create, hb, hs, hv, hu]
    · have hv : errorsIs e ErrValidationError = false :=
        errorsIs_exclusive e 2 4 _ _ hi (by decide)
      have hu : errorsIs e ErrUniquenessViolation = false :=
        errorsIs_exclusive e 2 3 _ _ hi (by decide)
      simp [CompaniesHandler.Create, hb, hs, hv, hu, hi]
    · simp [CompaniesHandler.Create, hb, hs, hv, hu, hi]
  · intro hb
    refine ⟨fun hs => ?_, fun hs => ⟨fun hn => ?_, fun hv => ?_, fun hu => ?_, fun hi => ?_,
      fun hn hv hu hi => ?_⟩⟩
    · simp [CompaniesHandler.Patch, hb, hs]
    · simp [CompaniesHandler.Patch, hb, hs, hn]
    · have hn : errorsIs e ErrNotFound = false :=
        errorsIs_exclusive e 4 1 _ _ hv (by decide)
      simp [CompaniesHandler.Patch, hb, hs, hn, hv]
    · have hn : errorsIs e ErrNotFound = false :=
        errorsIs_exclusive e 3 1 _ _ hu (by decide)
      have hv : errorsIs e ErrValidationError = false :=
        errorsIs_exclusive e 3 4 _ _ hu (by decide)
      simp [CompaniesHandler.Patch, hb, hs, hn, hv, hu]
    · have hn : errorsIs e ErrNotFound = false :=
        errorsIs_exclusive e 2 1 _ _ hi (by decide)
      have hv : errorsIs e ErrValidationError = false :=
        errorsIs_exclusive e 2 4 _ _ hi (by decide)
      have hu : errorsIs e ErrUniquenessViolation = false :=
        errorsIs_exclusive e 2 3 _ _ hi (by decide)
      simp [CompaniesHandler.Patch, hb, hs, hn, hv, hu, hi]
    · simp [CompaniesHandler.Patch, hb, hs, hn, hv, hu, hi]

/-- Witness of C23: a wrapped uniqueness violation on create, NotFound on patch
and the two successes. -/
theorem create_patch_status_mapping_witness :
    CompaniesHandler.Create
        (failingService (errorfWV ErrUniquenessViolation "name already exists"))
        "company-123" acmeBody =
        { code := 409,
          body := .object [("error", "uniqueness violation: name already exists")] } ∧
      CompaniesHandler.Patch (failingService ErrNotFound) "company-123"
        (.object { Name := some "Acme" }) =
        { code := 404, body := .object [("error", "company not found")] } ∧
      CompaniesHandler.Create okService "company-123" acmeBody =
        { code := 201,
          body := .company { ID := "company-123", Name := "Acme", Description := some "desc",
                             AmountOfEmployees := 42, Registered := true,
                             Type_ := "Corporations" } } ∧
      CompaniesHandler.Patch okService "company-123" (.object { Name := some "Acme" }) =
        { code := 201, body := .object [("status", "success")] } :=
  have hu := create_patch_status_mapping
    (failingService (errorfWV ErrUniquenessViolation "name already exists")) "company-123"
    "company-123" acmeBody
    { Name := "Acme", Description := some "desc", AmountOfEmployees := 42, Registered := true,
      Type_ := "Corporations" }
    (.object { Name := some "Acme" }) { Name := some "Acme" } {}
    (errorfWV ErrUniquenessViolation "name already exists")
  have hn := create_patch_status_mapping (failingService ErrNotFound) "company-123"
    "company-123" acmeBody
    { Name := "Acme", Description := some "desc", AmountOfEmployees := 42, Registered := true,
      Type_ := "Corporations" }
    (.object { Name := some "Acme" }) { Name := some "Acme" } {} ErrNotFound
  have hk := create_patch_status_mapping okService "company-123" "company-123" acmeBody
    { Name := "Acme", Description := some "desc", AmountOfEmployees := 42, Registered := true,
      Type_ := "Corporations" }
    (.object { Name := some "Acme" }) { Name := some "Acme" }
    { ID := "company-123", Name := "Acme", Description := some "desc",
      AmountOfEmployees := 42, Registered := true, Type_ := "Corporations" } dbDown
  ⟨((hu.1 (by decide)).2 rfl).2.1 (by decide), ((hn.2 rfl).2 rfl).1 (by decide),
    (hk.1 (by decide)).1 rfl, (hk.2 rfl).1 rfl⟩

/-- C24: for two service errors that are none of the recognised kinds
(NotFound, ValidationError, UniquenessViolation, InvalidInput), each of the
handlers Get, Create, Patch and Delete gives the same response for both: 500
with the fixed message of the endpoint, in which the text of the error does not
appear. -/
theorem unrecognised_errors_answered_alike (s₁ s₂ : CompanyService)
    (newUUID companyID : String) (cbody : RequestBody CreateFields)
    (payload : createCompanyRequest) (pbody : RequestBody PatchCompanyRequest)
    (overlay : PatchCompanyRequest) (c₁ c₂ : Company) (e₁ e₂ : GoError)
    (h₁ : isDomainKind e₁ = false) (h₂ : isDomainKind e₂ = false) :
    (s₁.GetCompanyByID companyID = (c₁, some e₁) →
        s₂.GetCompanyByID companyID = (c₂, some e₂) →
        CompaniesHandler.Get s₁ companyID =
            { code := 500, body := .object [("error", "failed to fetch company")] } ∧
          CompaniesHandler.Get s₂ companyID = CompaniesHandler.Get s₁ companyID) ∧
      (bindCreateCompanyRequest cbody = (payload, none) →
        s₁.CreateCompany (payload.toDomain newUUID) = (c₁, some e₁) →
        s₂.CreateCompany (payload.toDomain newUUID) = (c₂, some e₂) →
        CompaniesHandler.Create s₁ newUUID cbody =
            { code := 500, body := .object [("error", "failed to create company")] } ∧
          CompaniesHandler.Create s₂ newUUID cbody = CompaniesHandler.Create s₁ newUUID cbody) ∧
      (bindPatchCompanyRequest pbody = (overlay, none) →
        s₁.PatchCompanyByID overlay companyID = some e₁ →
        s₂.PatchCompanyByID overlay companyID = some e₂ →
        CompaniesHandler.Patch s₁ companyID pbody =
            { code := 500, body := .object [("error", "failed to update company")] } ∧
          CompaniesHandler.Patch s₂ companyID pbody = CompaniesHandler.Patch s₁ companyID pbody) ∧
      (s₁.DeleteCompanyByID companyID = some e₁ →
        s₂.DeleteCompanyByID companyID = some e₂ →
        CompaniesHandler.Delete s₁ companyID =
            { code := 500, body := .object [("error", "failed to delete the company")] } ∧
          CompaniesHandler.Delete s₂ companyID = CompaniesHandler.Delete s₁ companyID) := by
  simp only [isDomainKind, Bool.or_eq_false_iff] at h₁ h₂
  obtain ⟨⟨⟨n₁, i₁⟩, u₁⟩, v₁⟩ := h₁
  obtain ⟨⟨⟨n₂, i₂⟩, u₂⟩, v₂⟩ := h₂
  have ne₁ := ne_of_errorsIs_false e₁ _ n₁
  have ne₂ := ne_of_errorsIs_false e₂ _ n₂
  refine ⟨fun g₁ g₂ => ?_, fun hb g₁ g₂ => ?_, fun hb g₁ g₂ => ?_, fun g₁ g₂ => ?_⟩
  · simp [CompaniesHandler.Get, g₁, g₂, ne₁, ne₂]
  · simp [CompaniesHandler.Create, hb, g₁, g₂, v₁, v₂, u₁, u₂, i₁, i₂]
  · simp [CompaniesHandler.Patch, hb, g₁, g₂, n₁, n₂, v₁, v₂, u₁, u₂, i₁, i₂]
  · simp [CompaniesHandler.Delete, g₁, g₂, ne₁, ne₂]

/-- Witness of C24: "db down" and a driver error of another text on delete. -/
theorem unrecognised_errors_answered_alike_witness :
    CompaniesHandler.Delete (failingService dbDown) "company-123" =
        { code := 500, body := .object [("error", "failed to delete the company")] } ∧
      CompaniesHandler.Delete
        (failingService (.errorString 102 "dial tcp 10.0.0.7:3306: connection refused"))
        "company-123" = CompaniesHandler.Delete (failingService dbDown) "company-123" :=
  (unrecognised_errors_answered_alike (failingService dbDown)
    (failingService (.errorString 102 "dial tcp 10.0.0.7:3306: connection refused"))
    "company-123" "company-123" acmeBody {} (.object {}) {} {} {} dbDown
    (.errorString 102 "dial tcp 10.0.0.7:3306: connection refused") (by decide)
    (by decide)).2.2.2 rfl rfl

/-- C25: `validationMessage` gives back exactly the reason `r` of the error that
the service builds from `ErrValidationError` and `r` with "%w: %v", removing the
text "validation error: " once, and gives the message unchanged for an error
whose message does not start with that text; so when the service answers with
that error, the body of the 400 of Create and of Patch carries `r` itself. -/
theorem validation_message_is_reason (r : String) (e : GoError) (service : CompanyService)
    (newUUID companyID : String) (cbody : RequestBody CreateFields)
    (payload : createCompanyRequest) (pbody : RequestBody PatchCompanyRequest)
    (overlay : PatchCompanyRequest) (c : Company) :
    validationMessage (errorfWV ErrValidationError r) = r ∧
      (errorfWV ErrValidationError r).Error = "validation error: " ++ r ∧
      (HasPrefix e.Error "validation error: " = false → validationMessage e = e.Error) ∧
      (bindCreateCompanyRequest cbody = (payload, none) →
        service.CreateCompany (payload.toDomain newUUID) =
          (c, some (errorfWV ErrValidationError r)) →
        CompaniesHandler.Create service newUUID cbody =
          { code := 400, body := .object [("error", r)] }) ∧
      (bindPatchCompanyRequest pbody = (overlay, none) →
        service.PatchCompanyByID overlay companyID = some (errorfWV ErrValidationError r) →
        CompaniesHandler.Patch service companyID pbody =
          { code := 400, body := .object [("error", r)] }) := by
  have hv : errorsIs (errorfWV ErrValidationError r) ErrValidationError = true :=
    errorsIs_errorfWV _ _
  have hn : errorsIs (errorfWV ErrValidationError r) ErrNotFound = false :=
    errorsIs_exclusive _ 4 1 _ _ hv (by decide)
  refine ⟨validationMessage_errorfWV r, rfl, ?_, ?_, ?_⟩
  · intro hp
    have hp' : HasPrefix e.Error (ErrValidationError.Error ++ ": ") = false := hp
    simp [validationMessage, hp']
  · intro hb hs
    simp [CompaniesHandler.Create, hb, hs, hv, validationMessage_errorfWV]
  · intro hb hs
    simp [CompaniesHandler.Patch, hb, hs, hv, hn, validationMessage_errorfWV]

/-- Witness of C25: the reason of the integration test, and a reason that itself
starts with "validation error: ". -/
theorem validation_message_is_reason_witness :
    CompaniesHandler.Create
        (failingService (errorfWV ErrValidationError "name exceeds the limit of 15 characters"))
        "company-123" acmeBody =
        { code := 400,
          body := .object [("error", "name exceeds the limit of 15 characters")] } ∧
      validationMessage (errorfWV ErrValidationError "validation error: twice") =
        "validation error: twice" ∧
      validationMessage dbDown = "db down" :=
  have h := validation_message_is_reason "name exceeds the limit of 15 characters" dbDown
    (failingService (errorfWV ErrValidationError "name exceeds the limit of 15 characters"))
    "company-123" "company-123" acmeBody
    { Name := "Acme", Description := some "desc", AmountOfEmployees := 42, Registered := true,
      Type_ := "Corporations" } (.object {}) {} {}
  ⟨h.2.2.2.1 (by decide) rfl,
    (validation_message_is_reason "validation error: twice" dbDown okService "" ""
      acmeBody {} (.object {}) {} {}).1,
    h.2.2.1 (by decide)⟩

/-- C30 (the code departs from the claim): a create body with name "Acme", type
"Corporations" and amount_of_employees 0, or registered false, or both, is
answered 400 "invalid request body" whatever the service, which is not called:
the tag `binding:"required"` refuses the zero value of a number and of a
boolean. The same body with 42 and true reaches the service. -/
theorem create_refuses_zero_employees_and_unregistered (service : CompanyService)
    (newUUID : String) :
    CompaniesHandler.Create service newUUID
        (.object { name := some "Acme", amount_of_employees := some 0,
                   registered := some true, type_ := some "Corporations" }) =
        { code := 400, body := .object [("error", "invalid request body")] } ∧
      CompaniesHandler.Create service newUUID
        (.object { name := some "Acme", amount_of_employees := some 42,
                   registered := some false, type_ := some "Corporations" }) =
        { code := 400, body := .object [("error", "invalid request body")] } ∧
      CompaniesHandler.Create service newUUID
        (.object { name := some "Acme", amount_of_employees := some 0,
                   registered := some false, type_ := some "Corporations" }) =
        { code := 400, body := .object [("error", "invalid request body")] } ∧
      CompaniesHandler.Create okService "company-123"
        (.object { name := some "Acme", amount_of_employees := some 42,
                   registered := some true, type_ := some "Corporations" }) =
        { code := 201,
          body := .company { ID := "company-123", Name := "Acme", AmountOfEmployees := 42,
                             Registered := true, Type_ := "Corporations" } } := by
  refine ⟨?_, ?_, ?_, by decide⟩ <;>
    simp [CompaniesHandler.Create, bindCreateCompanyRequest, CreateFields.decoded]

/-- C26: over the table of the database, for a company that passes validation
and whose id and name are those of no existing row, `CreateCompany` of the
service succeeds and returns the company, and on the table so extended
`GetCompanyByID` of its id succeeds and returns a company equal to it in every
field, the description being nil or present as it was. Whenever the store's
`CreateCompany` succeeds, what it returns is its input. -/
theorem create_then_get_round_trip (t : mysql.Table) (rest : Repository)
    (pub : Option EventPublisher) (c r : Company)
    (hvalid : validateCompanyFields c = none)
    (hfree : ∀ row ∈ t, mysql.column row mysql.columnID ≠ .str c.ID ∧
      mysql.column row mysql.columnName ≠ .str c.Name) :
    ((NewService (mysql.repositoryAt t rest) pub).CreateCompany c).1 = (c, none) ∧
      ((NewService (mysql.repositoryAt (mysql.CreateCompany t c).2 rest) pub).GetCompanyByID
        c.ID).1 = (c, none) ∧
      ((mysql.CreateCompany t c).1 = (r, none) → r = c) := by
  have hcreate := mysql.CreateCompany_of_free t c hfree
  refine ⟨?_, ?_, ?_⟩
  · simp [Service.CreateCompany, NewService, mysql.repositoryAt, hvalid, hcreate]
  · have hget := mysql.GetCompanyByID_of_appended t c (fun row hrow => (hfree row hrow).1)
    have hrepo : (NewService (mysql.repositoryAt (mysql.CreateCompany t c).2 rest)
        pub).repo.GetCompanyByID c.ID = (c, none) := by
      show mysql.GetCompanyByID (mysql.CreateCompany t c).2 c.ID = (c, none)
      rw [hcreate]
      exact hget
    simp only [Service.GetCompanyByID, hrepo]
  · intro h
    rw [hcreate] at h
    cases h
    rfl

/-- Witness of C26: the company of the create test stored next to another
company. -/
theorem create_then_get_round_trip_witness :
    ((NewService (mysql.repositoryAt oneRowTable okRepo) none).CreateCompany techCorp).1 =
        (techCorp, none) ∧
      ((NewService (mysql.repositoryAt (mysql.CreateCompany oneRowTable techCorp).2 okRepo)
        none).GetCompanyByID techCorp.ID).1 = (techCorp, none) ∧
      ((mysql.CreateCompany oneRowTable techCorp).1 = (techCorp, none) → techCorp = techCorp) :=
  create_then_get_round_trip oneRowTable okRepo none techCorp techCorp (by decide)
    (by decide)

/-- C27, counterexample: the message of an identifier-only event carries, in
its company object, next to id also name "", amount_of_employees 0, registered
false and type "". -/
theorem identifier_only_event_carries_zero_values :
    (kafka.Publisher.message 0
        { Operation := "company.deleted", Company := { ID := "company-123" } }).Value =
        [("operation", .scalar (.str "company.deleted")),
          ("company", .object [("id", .str "company-123"), ("name", .str ""),
            ("amount_of_employees", .num 0), ("registered", .bool false),
            ("type", .str "")])] ∧
      kafka.marshalEventCompany { ID := "company-123" } ≠ [("id", .str "company-123")] := by
  decide

/-- C27, amended: the message built by `PublishCompanyEvent` has as key the
bytes of `event.Company.ID` and as value the object with operation and company,
in which id, name, amount_of_employees, registered and type are always present
with the values of the snapshot, zero values included, and description comes
after name exactly when the snapshot has one; the message is what
`WriteMessages` receives and its answer is what the publisher returns. -/
theorem event_message_layout (p : kafka.Publisher) (now : Time) (event : CompanyEvent)
    (d : String) :
    (kafka.Publisher.message now event).Key = kafka.bytes event.Company.ID ∧
      (event.Company.Description = none →
        (kafka.Publisher.message now event).Value =
          [("operation", .scalar (.str event.Operation)),
            ("company", .object [("id", .str event.Company.ID),
              ("name", .str event.Company.Name),
              ("amount_of_employees", .num event.Company.AmountOfEmployees),
              ("registered", .bool event.Company.Registered),
              ("type", .str event.Company.Type_)])]) ∧
      (event.Company.Description = some d →
        (kafka.Publisher.message now event).Value =
          [("operation", .scalar (.str event.Operation)),
            ("company", .object [("id", .str event.Company.ID),
              ("name", .str event.Company.Name), ("description", .str d),
              ("amount_of_employees", .num event.Company.AmountOfEmployees),
              ("registered", .bool event.Company.Registered),
              ("type", .str event.Company.Type_)])]) ∧
      p.PublishCompanyEvent now event = p.WriteMessages (kafka.Publisher.message now event) := by
  refine ⟨rfl, ?_, ?_, rfl⟩
  · intro h
    simp [kafka.Publisher.message, kafka.marshalCompanyEvent, kafka.marshalEventCompany, h]
  · intro h
    simp [kafka.Publisher.message, kafka.marshalCompanyEvent, kafka.marshalEventCompany, h]

/-- Witness of C27 amended: the event of a created company with a
description. -/
theorem event_message_layout_witness :
    (kafka.Publisher.message 0
        { Operation := "company.created", Company := toEventCompany techCorp }).Value =
      [("operation", .scalar (.str "company.created")),
        ("company", .object [("id", .str "company-123"), ("name", .str "TechCorp"),
          ("description", .str "A software company"), ("amount_of_employees", .num 100),
          ("registered", .bool true), ("type", .str "Corporations")])] :=
  (event_message_layout { topic := "company-events", WriteMessages := fun _ => none } 0
    { Operation := "company.created", Company := toEventCompany techCorp }
    "A software company").2.2.1 rfl

/-- C28, counterexample: with capacity -1, and with capacity 1 << 47,
`createPatchRequestFields` panics in `make` and returns nothing, while with
capacity 5 the same overlay gives the clause "name = ?" and the value
"Acme". -/
theorem patch_fields_depend_on_capacity :
    mysql.createPatchRequestFields { Name := some "Acme" } "company-123" (-1) = none ∧
      mysql.createPatchRequestFields { Name := some "Acme" } "company-123"
        140737488355328 = none ∧
      mysql.createPatchRequestFields { Name := some "Acme" } "company-123" 5 =
        some ("name = ?", [.str "Acme"]) := by
  decide

/-- C28, amended: with the capacity 5 that the service passes,
`createPatchRequestFields` returns the assignments "<column> = ?" of the
non-nil fields of the overlay, one each and none for a nil field, in the order
name, description, amount_of_employees, registered, type, joined by ", ",
together with the values of those fields in the same order, as many as there
are assignments. The result does not depend on the uuid, and with any other
capacity the function either returns that same result or, when `make` panics,
nothing; `make` panics when the capacity is negative or, at 16 bytes an
element, exceeds the largest allocation of the runtime. -/
theorem patch_fields_follow_overlay (p : PatchCompanyRequest) (uuid other : String)
    (capacity : Int) :
    mysql.createPatchRequestFields p uuid maxNumOfFields =
        some (String.intercalate ", "
          ((if p.Name.isSome then ["name = ?"] else []) ++
            (if p.Description.isSome then ["description = ?"] else []) ++
            (if p.AmountOfEmployees.isSome then ["amount_of_employees = ?"] else []) ++
            (if p.Registered.isSome then ["registered = ?"] else []) ++
            (if p.Type_.isSome then ["type = ?"] else [])),
          p.Name.toList.map mysql.SQLValue.str ++
            p.Description.toList.map mysql.SQLValue.str ++
            p.AmountOfEmployees.toList.map mysql.SQLValue.int ++
            p.Registered.toList.map mysql.SQLValue.bool ++
            p.Type_.toList.map mysql.SQLValue.str) ∧
      ((if p.Name.isSome then ["name = ?"] else []) ++
          (if p.Description.isSome then ["description = ?"] else []) ++
          (if p.AmountOfEmployees.isSome then ["amount_of_employees = ?"] else []) ++
          (if p.Registered.isSome then ["registered = ?"] else []) ++
          (if p.Type_.isSome then ["type = ?"] else [])).length =
        (p.Name.toList.map mysql.SQLValue.str ++
          p.Description.toList.map mysql.SQLValue.str ++
          p.AmountOfEmployees.toList.map mysql.SQLValue.int ++
          p.Registered.toList.map mysql.SQLValue.bool ++
          p.Type_.toList.map mysql.SQLValue.str).length ∧
      mysql.createPatchRequestFields p other maxNumOfFields =
        mysql.createPatchRequestFields p uuid maxNumOfFields ∧
      (mysql.createPatchRequestFields p other capacity ≠ none →
        mysql.createPatchRequestFields p other capacity =
          mysql.createPatchRequestFields p uuid maxNumOfFields) ∧
      (capacity < 0 ∨ mysql.maxAlloc < 16 * capacity →
        mysql.createPatchRequestFields p other capacity = none) := by
  have hfive : mysql.makePanics maxNumOfFields = false := by decide
  refine ⟨?_, ?_, ?_, ?_, ?_⟩
  · simp only [mysql.createPatchRequestFields, hfive, Bool.false_eq_true, if_false,
      mysql.patchFields_fst, mysql.patchFields_snd]
  · rw [← mysql.patchFields_fst, ← mysql.patchFields_snd]
    exact (mysql.patchFields_lengths p).symm
  · rfl
  · intro hret
    cases hc : mysql.makePanics capacity with
    | true => simp [mysql.createPatchRequestFields, hc] at hret
    | false => simp only [mysql.createPatchRequestFields, hc, hfive]
  · intro hbad
    have hc : mysql.makePanics capacity = true := by
      simp only [mysql.makePanics, Bool.or_eq_true, decide_eq_true_eq]
      exact hbad
    simp only [mysql.createPatchRequestFields, hc, if_true]

/-- Witness of C28 amended: an overlay with name and registered, at the
capacity 5, at the capacity 0, which `make` grants, and at -1. -/
theorem patch_fields_follow_overlay_witness :
    mysql.createPatchRequestFields { Name := some "Acme", Registered := some false }
        "company-123" maxNumOfFields =
        some ("name = ?, registered = ?", [.str "Acme", .bool false]) ∧
      mysql.createPatchRequestFields { Name := some "Acme", Registered := some false }
        "other" 0 =
        mysql.createPatchRequestFields { Name := some "Acme", Registered := some false }
          "company-123" maxNumOfFields ∧
      mysql.createPatchRequestFields { Name := some "Acme", Registered := some false }
        "other" (-1) = none :=
  ⟨(patch_fields_follow_overlay { Name := some "Acme", Registered := some false }
      "company-123" "other" 0).1,
    (patch_fields_follow_overlay { Name := some "Acme", Registered := some false }
      "company-123" "other" 0).2.2.2.1 (by decide),
    (patch_fields_follow_overlay { Name := some "Acme", Registered := some false }
      "company-123" "other" (-1)).2.2.2.2 (Or.inl (by decide))⟩

/-- C29: for an overlay accepted by `validatePatchCompanyRequestFields` and
the capacity 5 that the service passes, `createPatchRequestFields` yields at
least 1 and at most 5 assignments, so the SET clause is not empty, with as
many values; the query of `PatchCompanyByID` is "UPDATE  companies SET ",
the clause and " WHERE id = ?", its arguments are the values followed by the
identifier, and the number of "?" in the query is the number of arguments. -/
theorem update_statement_well_formed (p : PatchCompanyRequest) (uuid : String)
    (hvalid : validatePatchCompanyRequestFields p = none) :
    ∃ fields values,
      mysql.createPatchRequestFields p uuid maxNumOfFields = some (fields, values) ∧
      fields = String.intercalate ", " (mysql.patchFields p).1 ∧ fields ≠ "" ∧
      1 ≤ (mysql.patchFields p).1.length ∧ (mysql.patchFields p).1.length ≤ 5 ∧
      values.length = (mysql.patchFields p).1.length ∧
      mysql.patchStatement p uuid maxNumOfFields =
        some ("UPDATE  companies SET " ++ fields ++ " WHERE id = ?", values ++ [.str uuid]) ∧
      ("UPDATE  companies SET " ++ fields ++ " WHERE id = ?").data.count '?' =
        (values ++ [mysql.SQLValue.str uuid]).length := by
  have hguard := ((validatePatch_eq_none_iff p).mp hvalid).1
  have hset : (p.Name.isSome || p.AmountOfEmployees.isSome || p.Registered.isSome ||
      p.Type_.isSome) = true := by
    by_contra hno
    have hnone : ∀ {α : Type} (o : Option α), o.isSome = false → o = none := by
      intro α o ho
      cases o
      · rfl
      · cases ho
    simp only [Bool.or_eq_true, not_or, Bool.not_eq_true] at hno
    exact hguard ⟨hnone _ hno.1.1.1, hnone _ hno.1.1.2, hnone _ hno.1.2, hnone _ hno.2⟩
  obtain ⟨h₁, h₂, h₃, h₄⟩ := mysql.clause_well_formed p.Name.isSome p.Description.isSome
    p.AmountOfEmployees.isSome p.Registered.isSome p.Type_.isSome hset
  rw [← mysql.patchFields_fst] at h₁ h₂ h₃ h₄
  refine ⟨_, _, rfl, rfl, h₁, h₂, h₃, mysql.patchFields_lengths p, rfl, ?_⟩
  rw [h₄, List.length_append, mysql.patchFields_lengths]
  rfl

/-- Witness of C29: the overlay of the patch test. -/
theorem update_statement_well_formed_witness :
    ∃ fields values,
      mysql.createPatchRequestFields { Name := some "NewName" } "company-123"
        maxNumOfFields = some (fields, values) ∧
      fields = String.intercalate ", " (mysql.patchFields { Name := some "NewName" }).1 ∧
      fields ≠ "" ∧
      1 ≤ (mysql.patchFields { Name := some "NewName" }).1.length ∧
      (mysql.patchFields { Name := some "NewName" }).1.length ≤ 5 ∧
      values.length = (mysql.patchFields { Name := some "NewName" }).1.length ∧
      mysql.patchStatement { Name := some "NewName" } "company-123" maxNumOfFields =
        some ("UPDATE  companies SET " ++ fields ++ " WHERE id = ?",
          values ++ [.str "company-123"]) ∧
      ("UPDATE  companies SET " ++ fields ++ " WHERE id = ?").data.count '?' =
        (values ++ [mysql.SQLValue.str "company-123"]).length :=
  update_statement_well_formed { Name := some "NewName" } "company-123" (by decide)

end Xm
